import Mathlib

/-!
# Trust-aware AODV: trust table and reply handling

A shallow embedding of the trust data store (`trust-entry.cc`, `trust-table.cc`) and of the
trust-aware routing protocol (`trust-aodv-routing-protocol.cc`), followed by the properties
established about them.

Conventions of the embedding:

* addresses, sockets, devices and unsigned machine integers are natural numbers; where the
  source narrows or wraps a value the reduction modulo `2 ^ w` is written out;
* `double` values (drop probabilities, random draws, the trust threshold) are rationals: every
  finite `double` is a rational and the source only compares them;
* member functions take the object first and return the new object;
* calls into the base protocol and the socket layer are recorded, in order, as a list of `Call`s.
-/

set_option linter.dupNamespace false

namespace ns3

/-! ## Trust data store -/

/-- An IPv4 address, as its 32-bit value. -/
abbrev Ipv4Address := Nat

/-- Record of `trust-entry.cc`: the neighbour, the time the score was set, and the score
(`uint32_t trustValue`). -/
structure TrustEntry where
  neighbourAddress : Ipv4Address
  timestamp : Int
  trustValue : Nat
deriving DecidableEq, Repr

namespace TrustEntry

/-- Getter `TrustEntry::GetNeighbourAddress`. -/
def GetNeighbourAddress (e : TrustEntry) : Ipv4Address := e.neighbourAddress

/-- Setter `TrustEntry::SetNeighbourAddress`. -/
def SetNeighbourAddress (e : TrustEntry) (neighbourAddress : Ipv4Address) : TrustEntry :=
  { e with neighbourAddress := neighbourAddress }

/-- Getter `TrustEntry::GetTimestamp`. -/
def GetTimestamp (e : TrustEntry) : Int := e.timestamp

/-- Setter `TrustEntry::SetTimestamp`. -/
def SetTimestamp (e : TrustEntry) (timestamp : Int) : TrustEntry :=
  { e with timestamp := timestamp }

/-- Getter `TrustEntry::GetTrustValue`. -/
def GetTrustValue (e : TrustEntry) : Nat := e.trustValue

/-- Setter `TrustEntry::SetTrustValue`; the parameter is a `uint32_t`. -/
def SetTrustValue (e : TrustEntry) (trustValue : Nat) : TrustEntry :=
  { e with trustValue := trustValue % 2 ^ 32 }

end TrustEntry

/-- The constructor `TrustEntry::TrustEntry ()` has an empty body, so the `uint32_t` member is
left uninitialised: `indeterminate` is the value a later read of it yields. The address and
time members are default-constructed by their own classes. -/
def TrustEntry.TrustEntry (indeterminate : Nat) : TrustEntry :=
  { neighbourAddress := 0, timestamp := 0, trustValue := indeterminate % 2 ^ 32 }

/-- The table of `trust-table.cc`: the vector `m_tableRecords`, oldest record first. -/
structure TrustTable where
  m_tableRecords : List TrustEntry
deriving DecidableEq, Repr

namespace TrustTable

/-- The constructor `TrustTable::TrustTable ()`: an empty vector. -/
def empty : TrustTable := ⟨[]⟩

/-- Member `TrustTable::AddRecord`: `m_tableRecords.push_back (entry)`. -/
def AddRecord (t : TrustTable) (entry : TrustEntry) : TrustTable :=
  ⟨t.m_tableRecords ++ [entry]⟩

/-- Member `TrustTable::RemoveRecord`: `m_tableRecords.pop_back ()`, whatever `entry` is.
`pop_back` on an empty vector is undefined, so the empty table gives `none`. -/
def RemoveRecord (t : TrustTable) (_entry : TrustEntry) : Option TrustTable :=
  match t.m_tableRecords with
  | [] => none
  | r :: rs => some ⟨(r :: rs).dropLast⟩

/-- Modelled from the spec: `TrustTable::LookupTrustEntry (address, entry)` is declared in
`trust-table.h` and called by the routing protocol, but its body is not among the sources. The
spec gives `LookupTrustEntry(address) -> (found, entry)`: whether a record exists for the
address and, if so, that record; when absent, `found = false` and the caller keeps its own
(empty) entry `out`. Records are searched oldest first. -/
def LookupTrustEntry (t : TrustTable) (address : Ipv4Address) (out : TrustEntry) :
    Bool × TrustEntry :=
  match t.m_tableRecords.find? (fun r => r.neighbourAddress == address) with
  | some r => (true, r)
  | none => (false, out)

/-- The intended invariant of the spec: at most one record per neighbour address. -/
def UniqueKeys (t : TrustTable) : Prop :=
  (t.m_tableRecords.map TrustEntry.neighbourAddress).Nodup

instance (t : TrustTable) : Decidable t.UniqueKeys := by
  unfold UniqueKeys; infer_instance

end TrustTable

/-- Free function `updateRecord` of `trust-table.cc` (it is not a member: the definition lacks
the `TrustTable::` qualifier). Its body is empty, so no table changes. -/
def updateRecord (t : TrustTable) (_entry : TrustEntry) : TrustTable := t

/-! ## Base-protocol types used by the routing protocol -/

/-- Route state flag of a base-protocol route entry. -/
inductive RouteFlags where
  | VALID
  | INVALID
  | IN_SEARCH
deriving DecidableEq, Repr

/-- A local interface address. -/
structure Ipv4InterfaceAddress where
  m_local : Ipv4Address
  m_mask : Nat
deriving DecidableEq, Repr

/-- Modelled from the spec: the base protocol's route entry (`aodv::RoutingTableEntry`, whose
source is not part of this module): destination, next hop, hop count, destination sequence
number and its validity flag, route flag, remaining lifetime and precursors, together with the
output device and interface the constructor call in `TrustRecvReply` passes. -/
structure RoutingTableEntry where
  device : Nat
  dst : Ipv4Address
  validSeqNo : Bool
  seqNo : Nat
  iface : Ipv4InterfaceAddress
  hop : Nat
  nextHop : Ipv4Address
  lifeTime : Int
  flag : RouteFlags
  precursorList : List Ipv4Address
deriving DecidableEq, Repr

namespace RoutingTableEntry

/-- Modelled from the spec: `InsertPrecursor` records a node in the precursor set of the
entry; a node already recorded is not recorded twice. -/
def InsertPrecursor (rt : RoutingTableEntry) (id : Ipv4Address) : RoutingTableEntry :=
  if id ∈ rt.precursorList then rt else { rt with precursorList := rt.precursorList ++ [id] }

end RoutingTableEntry

/-- Modelled from the spec: the base route table (`aodv::RoutingTable`, not part of this
module), a collection of route entries keyed by destination address. -/
structure RoutingTable where
  entries : List RoutingTableEntry
deriving DecidableEq, Repr

namespace RoutingTable

/-- Modelled from the spec: `LookupRoute (dst, rt)` finds the entry keyed by `dst`; the
caller's `rt` is assigned only when one is found. -/
def LookupRoute (t : RoutingTable) (dst : Ipv4Address) : Option RoutingTableEntry :=
  t.entries.find? (fun e => e.dst == dst)

/-- Modelled from the spec: `LookupValidRoute (dst, rt)` is `LookupRoute` followed by the test
that the entry found is flagged valid. It gives the entry found and the result of the test. -/
def LookupValidRoute (t : RoutingTable) (dst : Ipv4Address) : Option (RoutingTableEntry × Bool) :=
  match t.LookupRoute dst with
  | some e => some (e, e.flag == RouteFlags.VALID)
  | none => none

/-- Modelled from the spec: `AddRoute (rt)` inserts the entry under its destination; a key
already present keeps its entry. -/
def AddRoute (t : RoutingTable) (rt : RoutingTableEntry) : RoutingTable :=
  match t.LookupRoute rt.dst with
  | some _ => t
  | none => ⟨t.entries ++ [rt]⟩

/-- Modelled from the spec: `Update (rt)` overwrites the entry keyed by the destination of
`rt`; without such a key nothing changes. -/
def Update (t : RoutingTable) (rt : RoutingTableEntry) : RoutingTable :=
  ⟨t.entries.map (fun e => if e.dst == rt.dst then rt else e)⟩

end RoutingTable

/-- The fields of a route reply (`aodv::RrepHeader`) that the handler reads or writes. -/
structure RrepHeader where
  hopCount : Nat
  dst : Ipv4Address
  dstSeqno : Nat
  origin : Ipv4Address
  lifeTime : Int
  ackRequired : Bool
deriving DecidableEq, Repr

/-- The field of a route request (`aodv::RreqHeader`) that the dispatcher reads. -/
structure RreqHeader where
  dst : Ipv4Address
deriving DecidableEq, Repr

/-- Message types of the base protocol (`aodv::MessageType`). -/
inductive MessageType where
  | AODVTYPE_RREQ
  | AODVTYPE_RREP
  | AODVTYPE_RERR
  | AODVTYPE_RREP_ACK
deriving DecidableEq, Repr

/-- A received control packet: the type header (`none` when `tHeader.IsValid ()` is false), the
request and reply headers as the handlers would decode them, and the value of the
`SocketIpTtlTag` attached to the packet. -/
structure Packet where
  tHeader : Option MessageType
  rreqHeader : RreqHeader
  rrepHeader : RrepHeader
  ttl : Nat
deriving DecidableEq, Repr

/-- The sibling application that owns the trust table. -/
structure SimpleAodvTrustManager where
  m_trustTable : TrustTable
deriving DecidableEq, Repr

/-- Calls the routing protocol makes into the base protocol and the socket layer. -/
inductive Call where
  | ProcessHello (rrepHeader : RrepHeader) (receiver : Ipv4Address)
  | SendReplyAck (neighbor : Ipv4Address)
  | SendPacketFromQueue (dst : Ipv4Address) (route : RoutingTableEntry)
  | SendTo (socket : Nat) (ttl : Nat) (rrepHeader : RrepHeader) (dest : Ipv4Address) (port : Nat)
  | RecvRequest (p : Packet) (receiver : Ipv4Address) (src : Ipv4Address)
  | RecvError (p : Packet) (src : Ipv4Address)
  | RecvReplyAck (neighbor : Ipv4Address)
deriving DecidableEq, Repr

/-! ## The trust-aware routing protocol -/

/-- Collaborators of the routing protocol whose code is outside this module: the network layer
(`m_ipv4`), the base protocol, and what a default-constructed route entry holds. -/
structure Base where
  /-- The value of a default-constructed `aodv::RoutingTableEntry`. -/
  defaultEntry : RoutingTableEntry
  /-- Lookup `m_ipv4->GetInterfaceForAddress`. -/
  GetInterfaceForAddress : Ipv4Address → Int
  /-- Lookup `m_ipv4->GetNetDevice`. -/
  GetNetDevice : Int → Nat
  /-- Lookup `m_ipv4->GetAddress`. -/
  GetAddress : Int → Nat → Ipv4InterfaceAddress
  /-- Base-protocol test for one of this node's own addresses. -/
  IsMyOwnAddress : Ipv4Address → Bool
  /-- Base-protocol search for the socket bound to an interface; `none` is the null pointer. -/
  FindSocketWithInterfaceAddress : Ipv4InterfaceAddress → Option Nat
  /-- Base-protocol refresh of the one-hop route to the sender of a control packet. -/
  UpdateRouteToNeighbor : Ipv4Address → Ipv4Address → RoutingTable → RoutingTable

/-- State of `trustaodv::RoutingProtocol` that the handlers read or write. `app` is the value of
`DynamicCast<SimpleAodvTrustManager> (GetObject<Node> ()->GetApplication (0))`, `none` for the
null pointer; `m_addressReqTimer` lists the destinations that have a request timer. -/
structure RoutingProtocol where
  m_routingTable : RoutingTable
  m_addressReqTimer : List Ipv4Address
  m_socketAddresses : List (Nat × Ipv4InterfaceAddress)
  m_socketSubnetBroadcastAddresses : List (Nat × Ipv4InterfaceAddress)
  m_rreqDropProbability : ℚ
  m_rrepDropProbability : ℚ
  m_dataDropProbability : ℚ
  m_activeRouteTimeout : Int
  app : Option SimpleAodvTrustManager

/-- What a handler leaves behind: the route table, the request timers, and the calls made. -/
structure Outcome where
  m_routingTable : RoutingTable
  m_addressReqTimer : List Ipv4Address
  calls : List Call
deriving DecidableEq, Repr

/-- Constant `RoutingProtocol::AODV_PORT`. -/
def AODV_PORT : Nat := 654

/-- The literal `0.4` of the trust test: the `double` nearest to four tenths. -/
def trustThreshold : ℚ := 3602879701896397 / 9007199254740992

/-- Conversion `int32_t (x)` of a `uint32_t`. -/
def int32_t (x : Nat) : Int :=
  if x % 2 ^ 32 < 2 ^ 31 then (x % 2 ^ 32 : Nat) else ((x % 2 ^ 32 : Nat) : Int) - 2 ^ 32

/-- Difference `int32_t (a) - int32_t (b)` of line 229, computed in `int`: `none` when the
mathematical difference lies outside the `int32_t` range, where the subtraction overflows and
the C++ behaviour is undefined. -/
def seqDiff (a b : Nat) : Option Int :=
  if -(2 ^ 31) ≤ int32_t a - int32_t b ∧ int32_t a - int32_t b < 2 ^ 31 then
    some (int32_t a - int32_t b)
  else
    none

/-- The test `(int32_t (a) - int32_t (b)) > 0` of line 229. Where the subtraction overflows
the outcome is not determined by the source (a wrapping build and a build that compares the
two `int32_t` values give opposite answers): it is the input `indetNewer`. -/
def seqNewer (a b : Nat) (indetNewer : Bool) : Bool :=
  match seqDiff a b with
  | some d => decide (d > 0)
  | none => indetNewer

/-- Lines 192-218 of `TrustRecvReply`: whether the reply is dropped on trust grounds. The two
lookups write into default-constructed entries and their results are not tested, so on a miss
the score read is the uninitialised member (`indetNextHop`, `indetSender`). The scores are
converted to `double`, which is exact for a `uint32_t`. -/
def trustVeto (app : Option SimpleAodvTrustManager) (actualNextHop sender : Ipv4Address)
    (indetNextHop indetSender : Nat) : Bool :=
  match app with
  | none => false
  | some app =>
    let nextHopTrustEntry :=
      (app.m_trustTable.LookupTrustEntry actualNextHop (TrustEntry.TrustEntry indetNextHop)).2
    let nextHopTrustValue : ℚ := (nextHopTrustEntry.GetTrustValue : ℚ)
    let senderTrustEntry :=
      (app.m_trustTable.LookupTrustEntry sender (TrustEntry.TrustEntry indetSender)).2
    let senderTrustValue : ℚ := (senderTrustEntry.GetTrustValue : ℚ)
    if senderTrustValue < trustThreshold then true
    else if nextHopTrustValue < trustThreshold then true
    else false

/-- Lines 220-246 of `TrustRecvReply`: the update of an existing route `toDst` by the candidate
`newEntry`, under rules (i)-(iv). `indetNewer` is the outcome of the test of rule (ii) should
its subtraction overflow. -/
def acceptanceStep (m_routingTable : RoutingTable) (newEntry : RoutingTableEntry)
    (rrepHeader : RrepHeader) (hop : Nat) (toDst : RoutingTableEntry) (indetNewer : Bool) :
    RoutingTable :=
  if !toDst.validSeqNo then
    m_routingTable.Update newEntry
  else if seqNewer rrepHeader.dstSeqno toDst.seqNo indetNewer then
    m_routingTable.Update newEntry
  else if rrepHeader.dstSeqno == toDst.seqNo && toDst.flag != RouteFlags.VALID then
    m_routingTable.Update newEntry
  else if rrepHeader.dstSeqno == toDst.seqNo && hop < toDst.hop then
    m_routingTable.Update newEntry
  else
    m_routingTable

/-- Lines 290-308 of `TrustRecvReply`: precursor bookkeeping once the route to the origin has
been refreshed. Gives the table and the local copy `toOrigin` afterwards. -/
def updatePrecursors (base : Base) (m_routingTable : RoutingTable) (dst : Ipv4Address)
    (toOrigin : RoutingTableEntry) : RoutingTable × RoutingTableEntry :=
  match m_routingTable.LookupValidRoute dst with
  | some (found, true) =>
    let toDst := found.InsertPrecursor toOrigin.nextHop
    let t1 := m_routingTable.Update toDst
    let toNextHopToDst :=
      ((t1.LookupRoute toDst.nextHop).getD base.defaultEntry).InsertPrecursor toOrigin.nextHop
    let t2 := t1.Update toNextHopToDst
    let toOrigin1 := toOrigin.InsertPrecursor toDst.nextHop
    let t3 := t2.Update toOrigin1
    let toNextHopToOrigin :=
      ((t3.LookupRoute toOrigin1.nextHop).getD base.defaultEntry).InsertPrecursor toDst.nextHop
    let t4 := t3.Update toNextHopToOrigin
    (t4, toOrigin1)
  | _ => (m_routingTable, toOrigin)

/-- Lines 274-326 of `TrustRecvReply`: the selfish drop, the refresh of the return route, the
precursor bookkeeping and the forwarding of the reply. `none` is the failure of
`NS_ASSERT (socket)`. -/
def forwardReply (base : Base) (rp : RoutingProtocol) (m_routingTable : RoutingTable)
    (calls : List Call) (p : Packet) (rrepHeader : RrepHeader) (dst : Ipv4Address) (draw : ℚ) :
    Option Outcome :=
  if draw < rp.m_rrepDropProbability then
    some ⟨m_routingTable, rp.m_addressReqTimer, calls⟩
  else
    match m_routingTable.LookupRoute rrepHeader.origin with
    | none => some ⟨m_routingTable, rp.m_addressReqTimer, calls⟩
    | some found =>
      if found.flag == RouteFlags.IN_SEARCH then
        some ⟨m_routingTable, rp.m_addressReqTimer, calls⟩
      else
        let toOrigin := { found with lifeTime := max rp.m_activeRouteTimeout found.lifeTime }
        let t1 := m_routingTable.Update toOrigin
        let (t2, toOrigin1) := updatePrecursors base t1 dst toOrigin
        if p.ttl < 2 then
          some ⟨t2, rp.m_addressReqTimer, calls⟩
        else
          match base.FindSocketWithInterfaceAddress toOrigin1.iface with
          | none => none
          | some socket =>
            some ⟨t2, rp.m_addressReqTimer,
              calls ++ [Call.SendTo socket ((p.ttl - 1) % 256) rrepHeader toOrigin1.nextHop
                AODV_PORT]⟩

/-- Lines 254-272 of `TrustRecvReply`, then the forwarding part: the acknowledgement, the
branch taken at the node that started the discovery, and otherwise `forwardReply`. `t1` is the
route table after the route update, `toDst` the local entry as the first lookup left it, and
`rrepHeader` the reply with its hop count already incremented. -/
def afterRouteUpdate (base : Base) (rp : RoutingProtocol) (t1 : RoutingTable)
    (toDst newEntry : RoutingTableEntry) (rrepHeader : RrepHeader) (p : Packet)
    (sender : Ipv4Address) (draw : ℚ) : Option Outcome :=
  let dst := rrepHeader.dst
  let calls1 := if rrepHeader.ackRequired then [Call.SendReplyAck sender] else []
  let rrepHeader1 := { rrepHeader with ackRequired := false }
  if base.IsMyOwnAddress rrepHeader1.origin then
    let t2 := if toDst.flag == RouteFlags.IN_SEARCH then t1.Update newEntry else t1
    let timers :=
      if toDst.flag == RouteFlags.IN_SEARCH then rp.m_addressReqTimer.filter (fun a => a != dst)
      else rp.m_addressReqTimer
    let toDst1 := (t2.LookupRoute dst).getD toDst
    some ⟨t2, timers, calls1 ++ [Call.SendPacketFromQueue dst toDst1]⟩
  else
    forwardReply base rp t1 calls1 p rrepHeader1 dst draw

/-- Line 164 of `TrustRecvReply`: `uint8_t hop = rrepHeader.GetHopCount () + 1`. -/
def TrustRecvReply.hop (p : Packet) : Nat := (p.rrepHeader.hopCount + 1) % 256

/-- Line 165 of `TrustRecvReply`: the reply header after `rrepHeader.SetHopCount (hop)`. -/
def TrustRecvReply.rrepHeader (p : Packet) : RrepHeader :=
  { p.rrepHeader with hopCount := TrustRecvReply.hop p }

/-- Lines 184-187 of `TrustRecvReply`: the candidate route `newEntry`, through the sender, on
the device and interface of the receiving address, flagged valid by the constructor. -/
def TrustRecvReply.newEntry (base : Base) (p : Packet) (receiver sender : Ipv4Address) :
    RoutingTableEntry :=
  { device := base.GetNetDevice (base.GetInterfaceForAddress receiver),
    dst := p.rrepHeader.dst, validSeqNo := true,
    seqNo := (TrustRecvReply.rrepHeader p).dstSeqno,
    iface := base.GetAddress (base.GetInterfaceForAddress receiver) 0,
    hop := TrustRecvReply.hop p, nextHop := sender,
    lifeTime := (TrustRecvReply.rrepHeader p).lifeTime, flag := RouteFlags.VALID,
    precursorList := [] }

/-- Handler `RoutingProtocol::TrustRecvReply`. `draw` is the value of
`m_uniformRandomVariable->GetValue (0,100)` should the handler ask for it; `indetNextHop` and
`indetSender` are the uninitialised scores of the two local trust entries; `indetNewer` is the
outcome of the test of rule (ii) should its subtraction overflow. `none` is a failed
assertion. -/
def TrustRecvReply (base : Base) (rp : RoutingProtocol) (p : Packet)
    (receiver sender : Ipv4Address) (draw : ℚ) (indetNextHop indetSender : Nat)
    (indetNewer : Bool) : Option Outcome :=
  let dst := p.rrepHeader.dst
  let hop := TrustRecvReply.hop p
  let rrepHeader := TrustRecvReply.rrepHeader p
  if dst == rrepHeader.origin then
    some ⟨rp.m_routingTable, rp.m_addressReqTimer, [Call.ProcessHello rrepHeader receiver]⟩
  else
    let newEntry := TrustRecvReply.newEntry base p receiver sender
    let looked := rp.m_routingTable.LookupRoute dst
    let toDst := looked.getD base.defaultEntry
    if looked.isSome && trustVeto rp.app toDst.nextHop sender indetNextHop indetSender then
      some ⟨rp.m_routingTable, rp.m_addressReqTimer, []⟩
    else
      let t1 :=
        if looked.isSome then
          acceptanceStep rp.m_routingTable newEntry rrepHeader hop toDst indetNewer
        else rp.m_routingTable.AddRoute newEntry
      afterRouteUpdate base rp t1 toDst newEntry rrepHeader p sender draw

/-- Lines 83-98 of `RecvAodv`: the local address of the socket the packet arrived on; `none`
when the socket is in neither map (`NS_ASSERT_MSG (false, ...)`). -/
def receiverOf (rp : RoutingProtocol) (socket : Nat) : Option Ipv4Address :=
  match rp.m_socketAddresses.find? (fun s => s.1 == socket) with
  | some s => some s.2.m_local
  | none =>
    match rp.m_socketSubnetBroadcastAddresses.find? (fun s => s.1 == socket) with
    | some s => some s.2.m_local
    | none => none

/-- Handler `RoutingProtocol::RecvAodv`: `packet` and `sender` are what `socket->RecvFrom`
returned. `none` is a failed assertion. -/
def RecvAodv (base : Base) (rp : RoutingProtocol) (socket : Nat) (packet : Packet)
    (sender : Ipv4Address) (draw : ℚ) (indetNextHop indetSender : Nat) (indetNewer : Bool) :
    Option Outcome :=
  match receiverOf rp socket with
  | none => none
  | some receiver =>
    let t := base.UpdateRouteToNeighbor sender receiver rp.m_routingTable
    match packet.tHeader with
    | none => some ⟨t, rp.m_addressReqTimer, []⟩
    | some MessageType.AODVTYPE_RREQ =>
      if base.IsMyOwnAddress packet.rreqHeader.dst then
        some ⟨t, rp.m_addressReqTimer, [Call.RecvRequest packet receiver sender]⟩
      else if draw > rp.m_rreqDropProbability then
        some ⟨t, rp.m_addressReqTimer, [Call.RecvRequest packet receiver sender]⟩
      else
        some ⟨t, rp.m_addressReqTimer, []⟩
    | some MessageType.AODVTYPE_RREP =>
      TrustRecvReply base { rp with m_routingTable := t } packet receiver sender draw
        indetNextHop indetSender indetNewer
    | some MessageType.AODVTYPE_RERR =>
      some ⟨t, rp.m_addressReqTimer, [Call.RecvError packet sender]⟩
    | some MessageType.AODVTYPE_RREP_ACK =>
      some ⟨t, rp.m_addressReqTimer, [Call.RecvReplyAck sender]⟩

/-- What `RouteInput` leaves behind: the value returned, the forwarding flags of the network
layer as the base protocol saw them, and the forwarding flags on return. -/
structure RouteInputResult where
  ret : Bool
  during : Int → Bool
  after : Int → Bool

/-- Call `m_ipv4->SetForwarding (i, val)` on the per-interface forwarding flags. -/
def SetForwarding (IsForwarding : Int → Bool) (i : Int) (val : Bool) : Int → Bool :=
  fun j => if j = i then val else IsForwarding j

/-- Handler `RoutingProtocol::RouteInput`. `GetInterfaceForDevice` is the lookup of the network
layer, `IsForwarding` its per-interface forwarding flags, and `baseRouteInput` the base
protocol's `RouteInput`, which is given the flags in force and returns its result and the flags
it leaves. `draw` is the value of `m_uniformRandomVariable->GetValue (0,100)`. `none` is the
failure of `NS_ASSERT (m_ipv4->GetInterfaceForDevice (idev) >= 0)`. -/
def RouteInput (GetInterfaceForDevice : Nat → Int)
    (baseRouteInput : (Int → Bool) → Bool × (Int → Bool)) (rp : RoutingProtocol)
    (IsForwarding : Int → Bool) (idev : Nat) (draw : ℚ) : Option RouteInputResult :=
  if GetInterfaceForDevice idev ≥ 0 then
    let iif := GetInterfaceForDevice idev
    let ifaceForwardingState := IsForwarding iif
    let during :=
      if draw < rp.m_dataDropProbability then SetForwarding IsForwarding iif false
      else IsForwarding
    let r := baseRouteInput during
    some ⟨r.1, during, SetForwarding r.2 iif ifaceForwardingState⟩
  else
    none

/-! ## Fixtures for concrete evaluations -/

namespace Example

/-- A route entry on interface address 1 with lifetime 10 and no precursors. -/
def entry (dst seqNo hop nextHop : Nat) (validSeqNo : Bool) (flag : RouteFlags) :
    RoutingTableEntry :=
  { device := 0, dst := dst, validSeqNo := validSeqNo, seqNo := seqNo, iface := ⟨1, 0⟩,
    hop := hop, nextHop := nextHop, lifeTime := 10, flag := flag, precursorList := [] }

/-- A node with one interface (index 0, device 0, address 1, socket 0) whose neighbour
refresh leaves the table as it is. -/
def base : Base :=
  { defaultEntry := entry 0 0 0 0 false RouteFlags.VALID
    GetInterfaceForAddress := fun _ => 0
    GetNetDevice := fun _ => 0
    GetAddress := fun _ _ => ⟨1, 0⟩
    IsMyOwnAddress := fun a => a == 1
    FindSocketWithInterfaceAddress := fun i => if i = ⟨1, 0⟩ then some 0 else none
    UpdateRouteToNeighbor := fun _ _ t => t }

/-- A protocol instance on socket 0 with the given table, trust application and one drop
probability for the three kinds of traffic; the active-route timeout is 3. -/
def protocol (table : RoutingTable) (app : Option SimpleAodvTrustManager) (drop : ℚ) :
    RoutingProtocol :=
  { m_routingTable := table, m_addressReqTimer := [], m_socketAddresses := [(0, ⟨1, 0⟩)],
    m_socketSubnetBroadcastAddresses := [], m_rreqDropProbability := drop,
    m_rrepDropProbability := drop, m_dataDropProbability := drop, m_activeRouteTimeout := 3,
    app := app }

/-- A reply with lifetime 10. -/
def reply (hopCount dst dstSeqno origin : Nat) (ackRequired : Bool) : RrepHeader :=
  { hopCount := hopCount, dst := dst, dstSeqno := dstSeqno, origin := origin, lifeTime := 10,
    ackRequired := ackRequired }

/-- A reply packet with the given time-to-live. -/
def replyPacket (rrepHeader : RrepHeader) (ttl : Nat) : Packet :=
  { tHeader := some MessageType.AODVTYPE_RREP, rreqHeader := ⟨0⟩, rrepHeader := rrepHeader,
    ttl := ttl }

/-- A request packet for the given destination. -/
def requestPacket (dst : Nat) : Packet :=
  { tHeader := some MessageType.AODVTYPE_RREQ, rreqHeader := ⟨dst⟩,
    rrepHeader := reply 0 0 0 0 false, ttl := 5 }

end Example

/-! ## Properties of the trust table -/

theorem TrustTable.uniqueKeys_append_iff (l : List TrustEntry) (e : TrustEntry) :
    ((l ++ [e]).map TrustEntry.neighbourAddress).Nodup ↔
      (l.map TrustEntry.neighbourAddress).Nodup ∧
        ∀ r ∈ l, r.neighbourAddress ≠ e.neighbourAddress := by
  rw [List.map_append, List.nodup_append]
  simp only [List.map_cons, List.map_nil, List.nodup_singleton, true_and, List.mem_map,
    List.disjoint_singleton]
  constructor
  · rintro ⟨h1, h2⟩
    exact ⟨h1, fun r hr heq => h2 ⟨r, hr, heq⟩⟩
  · rintro ⟨h1, h2⟩
    exact ⟨h1, fun ⟨r, hr, heq⟩ => h2 r hr heq⟩

theorem TrustTable.uniqueKeys_dropLast (l : List TrustEntry)
    (h : (l.map TrustEntry.neighbourAddress).Nodup) :
    (l.dropLast.map TrustEntry.neighbourAddress).Nodup :=
  (List.Sublist.map _ (List.dropLast_sublist l)).nodup h

/-- C1, evaluated on the code: removing entry B from the table [A, B, C] leaves [A, B], not
[A, C]: `RemoveRecord` pops the last record and never looks at its argument. -/
theorem C1_RemoveRecord_removes_last_not_match :
    (TrustTable.mk [⟨10, 0, 1⟩, ⟨20, 0, 2⟩, ⟨30, 0, 3⟩]).RemoveRecord ⟨20, 0, 2⟩
        = some ⟨[⟨10, 0, 1⟩, ⟨20, 0, 2⟩]⟩ ∧
      (TrustTable.mk [⟨10, 0, 1⟩, ⟨20, 0, 2⟩, ⟨30, 0, 3⟩]).RemoveRecord ⟨20, 0, 2⟩
        ≠ some ⟨[⟨10, 0, 1⟩, ⟨30, 0, 3⟩]⟩ := by
  decide

/-- C2, evaluated on the code: on the empty table, `AddRecord` of a record for address 10 with
score 1 followed by `updateRecord` with score 2 for the same address leaves a lookup of
address 10 at score 1: the most recent write is not reflected. -/
theorem C2_lookup_misses_update :
    (updateRecord (TrustTable.empty.AddRecord ⟨10, 0, 1⟩) ⟨10, 5, 2⟩).LookupTrustEntry 10
        (TrustEntry.TrustEntry 0) = (true, ⟨10, 0, 1⟩) ∧
      ((updateRecord (TrustTable.empty.AddRecord ⟨10, 0, 1⟩) ⟨10, 5, 2⟩).LookupTrustEntry 10
        (TrustEntry.TrustEntry 0)).2.trustValue ≠ 2 := by
  decide

/-- C3, evaluated on the code: `updateRecord` neither inserts a record for an absent address
(the empty table stays empty, so it holds no record for address 10) nor replaces the score of a
present one (the record for address 10 keeps score 1 and timestamp 0). -/
theorem C3_updateRecord_changes_nothing :
    (updateRecord TrustTable.empty ⟨10, 5, 2⟩).m_tableRecords = [] ∧
      (⟨10, 5, 2⟩ : TrustEntry) ∉ (updateRecord TrustTable.empty ⟨10, 5, 2⟩).m_tableRecords ∧
      updateRecord ⟨[⟨10, 0, 1⟩]⟩ ⟨10, 5, 2⟩ = ⟨[⟨10, 0, 1⟩]⟩ := by
  decide

/-- C4 as stated fails: the table holding one record for address 10 has at most one record per
address, and `AddRecord` of a second record for address 10 breaks that. -/
theorem C4_AddRecord_breaks_uniqueKeys :
    (TrustTable.mk [⟨10, 0, 1⟩]).UniqueKeys ∧
      ¬ ((TrustTable.mk [⟨10, 0, 1⟩]).AddRecord ⟨10, 7, 2⟩).UniqueKeys := by
  decide

/-- C4, amended: "at most one record per neighbour address" holds for the empty table; on a
table where it holds, `RemoveRecord` (defined on every non-empty table) and `updateRecord` keep
it for every argument, and `AddRecord (e)` keeps it exactly when no record already has the
address of `e`. -/
theorem C4_uniqueKeys_preserved (t : TrustTable) (e : TrustEntry) (h : t.UniqueKeys) :
    TrustTable.empty.UniqueKeys ∧
      ((t.AddRecord e).UniqueKeys ↔
        ∀ r ∈ t.m_tableRecords, r.neighbourAddress ≠ e.neighbourAddress) ∧
      (t.m_tableRecords ≠ [] → ∃ t1, t.RemoveRecord e = some t1 ∧ t1.UniqueKeys) ∧
      (∀ t1, t.RemoveRecord e = some t1 → t1.UniqueKeys) ∧
      (updateRecord t e).UniqueKeys := by
  refine ⟨by decide, ?_, ?_, ?_, h⟩
  · unfold TrustTable.UniqueKeys TrustTable.AddRecord
    rw [TrustTable.uniqueKeys_append_iff]
    exact ⟨fun hh => hh.2, fun hh => ⟨h, hh⟩⟩
  · intro hne
    obtain ⟨l⟩ := t
    cases l with
    | nil => exact absurd rfl hne
    | cons r rs =>
      exact ⟨⟨(r :: rs).dropLast⟩, rfl, TrustTable.uniqueKeys_dropLast (r :: rs) h⟩
  · intro t1 ht1
    obtain ⟨l⟩ := t
    cases l with
    | nil => simp [TrustTable.RemoveRecord] at ht1
    | cons r rs =>
      simp only [TrustTable.RemoveRecord, Option.some.injEq] at ht1
      subst ht1
      exact TrustTable.uniqueKeys_dropLast (r :: rs) h

/-- C4, amended, at a concrete table: [10, 20] with a record for address 30. -/
theorem C4_uniqueKeys_preserved_witness :
    TrustTable.empty.UniqueKeys ∧
      (((TrustTable.mk [⟨10, 0, 1⟩, ⟨20, 0, 2⟩]).AddRecord ⟨30, 0, 3⟩).UniqueKeys ↔
        ∀ r ∈ (TrustTable.mk [⟨10, 0, 1⟩, ⟨20, 0, 2⟩]).m_tableRecords,
          r.neighbourAddress ≠ (⟨30, 0, 3⟩ : TrustEntry).neighbourAddress) ∧
      ((TrustTable.mk [⟨10, 0, 1⟩, ⟨20, 0, 2⟩]).m_tableRecords ≠ [] →
        ∃ t1, (TrustTable.mk [⟨10, 0, 1⟩, ⟨20, 0, 2⟩]).RemoveRecord ⟨30, 0, 3⟩ = some t1 ∧
          t1.UniqueKeys) ∧
      (∀ t1, (TrustTable.mk [⟨10, 0, 1⟩, ⟨20, 0, 2⟩]).RemoveRecord ⟨30, 0, 3⟩ = some t1 →
        t1.UniqueKeys) ∧
      (updateRecord (TrustTable.mk [⟨10, 0, 1⟩, ⟨20, 0, 2⟩]) ⟨30, 0, 3⟩).UniqueKeys :=
  C4_uniqueKeys_preserved ⟨[⟨10, 0, 1⟩, ⟨20, 0, 2⟩]⟩ ⟨30, 0, 3⟩ (by decide)

/-! ## Properties of the route table and of the sequence-number comparison -/

theorem RoutingTable.LookupRoute_Update_self (t : RoutingTable) (rt toDst : RoutingTableEntry)
    (h : t.LookupRoute rt.dst = some toDst) : (t.Update rt).LookupRoute rt.dst = some rt := by
  obtain ⟨l⟩ := t
  simp only [RoutingTable.LookupRoute, RoutingTable.Update] at h ⊢
  induction l with
  | nil => simp at h
  | cons e es ih =>
    by_cases he : e.dst = rt.dst
    · simp [List.find?, he]
    · have h1 : (e.dst == rt.dst) = false := by simpa using he
      simp only [List.find?, h1, List.map_cons] at h ⊢
      simpa [h1] using ih h

theorem RoutingTable.LookupRoute_Update_of_ne (t : RoutingTable) (rt : RoutingTableEntry)
    (d : Ipv4Address) (h : d ≠ rt.dst) : (t.Update rt).LookupRoute d = t.LookupRoute d := by
  obtain ⟨l⟩ := t
  simp only [RoutingTable.LookupRoute, RoutingTable.Update]
  induction l with
  | nil => rfl
  | cons e es ih =>
    by_cases he : e.dst = rt.dst
    · have h1 : (rt.dst == d) = false := by simpa using fun hh => h hh.symm
      have h2 : (e.dst == d) = false := by rw [he]; exact h1
      simp only [List.map_cons, List.find?, he, beq_self_eq_true, if_true, h1, h2]
      exact ih
    · have h1 : (e.dst == rt.dst) = false := by simpa using he
      simp only [List.map_cons, List.find?, h1]
      by_cases h3 : e.dst = d
      · simp [h3]
      · have h4 : (e.dst == d) = false := by simpa using h3
        simpa [h4] using ih

/-! ## The trust veto -/

theorem lt_trustThreshold_iff (v : Nat) : (v : ℚ) < trustThreshold ↔ v = 0 := by
  unfold trustThreshold
  constructor
  · intro h
    by_contra hne
    have h1 : (1 : ℚ) ≤ (v : ℚ) := by exact_mod_cast Nat.one_le_iff_ne_zero.mpr hne
    have h2 : (3602879701896397 / 9007199254740992 : ℚ) < 1 := by norm_num
    linarith
  · rintro rfl
    norm_num

theorem trustVeto_some (a : SimpleAodvTrustManager) (actualNextHop sender : Ipv4Address)
    (indetNextHop indetSender : Nat) :
    trustVeto (some a) actualNextHop sender indetNextHop indetSender = true ↔
      (a.m_trustTable.LookupTrustEntry sender (TrustEntry.TrustEntry indetSender)).2.trustValue
          = 0 ∨
        (a.m_trustTable.LookupTrustEntry actualNextHop
          (TrustEntry.TrustEntry indetNextHop)).2.trustValue = 0 := by
  simp only [trustVeto, TrustEntry.GetTrustValue, lt_trustThreshold_iff]
  split_ifs with h1 h2
  · simp [h1]
  · simp [h2]
  · simp [h1, h2]

@[simp]
theorem TrustRecvReply.rrepHeader_origin (p : Packet) :
    (TrustRecvReply.rrepHeader p).origin = p.rrepHeader.origin := rfl

@[simp]
theorem TrustRecvReply.rrepHeader_dst (p : Packet) :
    (TrustRecvReply.rrepHeader p).dst = p.rrepHeader.dst := rfl

@[simp]
theorem TrustRecvReply.rrepHeader_ackRequired (p : Packet) :
    (TrustRecvReply.rrepHeader p).ackRequired = p.rrepHeader.ackRequired := rfl

@[simp]
theorem TrustRecvReply.rrepHeader_dstSeqno (p : Packet) :
    (TrustRecvReply.rrepHeader p).dstSeqno = p.rrepHeader.dstSeqno := rfl

@[simp]
theorem TrustRecvReply.rrepHeader_hopCount (p : Packet) :
    (TrustRecvReply.rrepHeader p).hopCount = TrustRecvReply.hop p := rfl

@[simp]
theorem TrustRecvReply.newEntry_dst (base : Base) (p : Packet)
    (receiver sender : Ipv4Address) :
    (TrustRecvReply.newEntry base p receiver sender).dst = p.rrepHeader.dst := rfl

@[simp]
theorem TrustRecvReply.newEntry_hop (base : Base) (p : Packet)
    (receiver sender : Ipv4Address) :
    (TrustRecvReply.newEntry base p receiver sender).hop = TrustRecvReply.hop p := rfl

@[simp]
theorem TrustRecvReply.newEntry_nextHop (base : Base) (p : Packet)
    (receiver sender : Ipv4Address) :
    (TrustRecvReply.newEntry base p receiver sender).nextHop = sender := rfl

@[simp]
theorem TrustRecvReply.newEntry_seqNo (base : Base) (p : Packet)
    (receiver sender : Ipv4Address) :
    (TrustRecvReply.newEntry base p receiver sender).seqNo = p.rrepHeader.dstSeqno := rfl

@[simp]
theorem TrustRecvReply.newEntry_flag (base : Base) (p : Packet)
    (receiver sender : Ipv4Address) :
    (TrustRecvReply.newEntry base p receiver sender).flag = RouteFlags.VALID := rfl

theorem TrustRecvReply_veto (base : Base) (rp : RoutingProtocol) (p : Packet)
    (receiver sender : Ipv4Address) (draw : ℚ) (indetNextHop indetSender : Nat) (indetNewer : Bool)
    (toDst : RoutingTableEntry) (hne : p.rrepHeader.dst ≠ p.rrepHeader.origin)
    (hroute : rp.m_routingTable.LookupRoute p.rrepHeader.dst = some toDst)
    (hveto : trustVeto rp.app toDst.nextHop sender indetNextHop indetSender = true) :
    TrustRecvReply base rp p receiver sender draw indetNextHop indetSender indetNewer
      = some ⟨rp.m_routingTable, rp.m_addressReqTimer, []⟩ := by
  unfold TrustRecvReply
  simp [hne, hroute, hveto]

/-- C7 as stated fails for a hello: node 7 sends a reply whose destination and origin are both
7; a route to 7 exists with next hop 7, and the trust table scores 7 at 0, below the threshold.
The handler does not abort: it hands the reply to the hello routine. -/
theorem C7_hello_counterexample :
    (RoutingTable.mk [Example.entry 7 1 1 7 true RouteFlags.VALID]).LookupRoute 7
        = some (Example.entry 7 1 1 7 true RouteFlags.VALID) ∧
      (TrustTable.mk [⟨7, 0, 0⟩]).LookupTrustEntry 7 (TrustEntry.TrustEntry 0)
        = (true, ⟨7, 0, 0⟩) ∧
      (((⟨7, 0, 0⟩ : TrustEntry).trustValue : ℚ) < trustThreshold) ∧
      TrustRecvReply Example.base
          (Example.protocol ⟨[Example.entry 7 1 1 7 true RouteFlags.VALID]⟩
            (some ⟨⟨[⟨7, 0, 0⟩]⟩⟩) 0)
          (Example.replyPacket (Example.reply 0 7 5 7 false) 5) 1 7 50 0 0 false
        = some ⟨⟨[Example.entry 7 1 1 7 true RouteFlags.VALID]⟩, [],
            [Call.ProcessHello (Example.reply 1 7 5 7 false) 1]⟩ ∧
      TrustRecvReply Example.base
          (Example.protocol ⟨[Example.entry 7 1 1 7 true RouteFlags.VALID]⟩
            (some ⟨⟨[⟨7, 0, 0⟩]⟩⟩) 0)
          (Example.replyPacket (Example.reply 0 7 5 7 false) 5) 1 7 50 0 0 false
        ≠ some ⟨⟨[Example.entry 7 1 1 7 true RouteFlags.VALID]⟩, [], []⟩ :=
  ⟨by decide, by decide, (lt_trustThreshold_iff 0).mpr rfl, by decide, by decide⟩

/-- C7, amended: for a reply that is not a hello (destination differs from origin), when a
route `toDst` to the destination exists and the trust application is present, if the score the
handler reads for the sender or for the next hop of `toDst` is below the threshold, the handler
aborts: the route table and the request timers are as before and no call is made (no
acknowledgement, no forwarding, no queue flush), whatever the sequence numbers, hop counts, ack
flag, origin and random draw are. -/
theorem C7_trust_veto_aborts (base : Base) (rp : RoutingProtocol) (p : Packet)
    (receiver sender : Ipv4Address) (draw : ℚ) (indetNextHop indetSender : Nat) (indetNewer : Bool)
    (toDst : RoutingTableEntry) (a : SimpleAodvTrustManager)
    (hne : p.rrepHeader.dst ≠ p.rrepHeader.origin)
    (hroute : rp.m_routingTable.LookupRoute p.rrepHeader.dst = some toDst)
    (happ : rp.app = some a)
    (hlow :
      (((a.m_trustTable.LookupTrustEntry sender
          (TrustEntry.TrustEntry indetSender)).2.GetTrustValue : ℚ) < trustThreshold) ∨
      (((a.m_trustTable.LookupTrustEntry toDst.nextHop
          (TrustEntry.TrustEntry indetNextHop)).2.GetTrustValue : ℚ) < trustThreshold)) :
    TrustRecvReply base rp p receiver sender draw indetNextHop indetSender indetNewer
      = some ⟨rp.m_routingTable, rp.m_addressReqTimer, []⟩ := by
  apply TrustRecvReply_veto base rp p receiver sender draw indetNextHop indetSender indetNewer toDst hne
    hroute
  rw [happ, trustVeto_some]
  simpa only [TrustEntry.GetTrustValue, lt_trustThreshold_iff] using hlow

/-- C7, amended, at a concrete input: the sender 3 is scored 1 and the current next hop 2 is
scored 0; the candidate has a newer sequence number and asks for an acknowledgement. -/
theorem C7_trust_veto_aborts_witness :
    TrustRecvReply Example.base
        (Example.protocol ⟨[Example.entry 7 1 4 2 true RouteFlags.VALID]⟩
          (some ⟨⟨[⟨3, 0, 1⟩, ⟨2, 0, 0⟩]⟩⟩) 0)
        (Example.replyPacket (Example.reply 2 7 5 9 true) 5) 1 3 50 0 0 false
      = some ⟨⟨[Example.entry 7 1 4 2 true RouteFlags.VALID]⟩, [], []⟩ :=
  C7_trust_veto_aborts Example.base
    (Example.protocol ⟨[Example.entry 7 1 4 2 true RouteFlags.VALID]⟩
      (some ⟨⟨[⟨3, 0, 1⟩, ⟨2, 0, 0⟩]⟩⟩) 0)
    (Example.replyPacket (Example.reply 2 7 5 9 true) 5) 1 3 50 0 0 false
    (Example.entry 7 1 4 2 true RouteFlags.VALID) ⟨⟨[⟨3, 0, 1⟩, ⟨2, 0, 0⟩]⟩⟩
    (by decide) (by decide) rfl (Or.inr ((lt_trustThreshold_iff 0).mpr rfl))

/-- C8 as stated fails when no route to the destination exists: the table holds only a route
to the origin 9 (via 4), the trust table scores the sender 3 at 0, and the reply is for
destination 7. The handler inserts the route to 7 via the sender, touches the route to 9, and
forwards the reply to 4 with time-to-live 4. -/
theorem C8_no_route_counterexample :
    (RoutingTable.mk [Example.entry 9 1 2 4 true RouteFlags.VALID]).LookupRoute 7 = none ∧
      (TrustTable.mk [⟨3, 0, 0⟩]).LookupTrustEntry 3 (TrustEntry.TrustEntry 0)
        = (true, ⟨3, 0, 0⟩) ∧
      (((⟨3, 0, 0⟩ : TrustEntry).trustValue : ℚ) < trustThreshold) ∧
      TrustRecvReply Example.base
          (Example.protocol ⟨[Example.entry 9 1 2 4 true RouteFlags.VALID]⟩
            (some ⟨⟨[⟨3, 0, 0⟩]⟩⟩) 0)
          (Example.replyPacket (Example.reply 2 7 5 9 false) 5) 1 3 50 0 0 false
        = some ⟨⟨[{ Example.entry 9 1 2 4 true RouteFlags.VALID with precursorList := [3] },
              { Example.entry 7 5 3 3 true RouteFlags.VALID with precursorList := [4] }]⟩, [],
            [Call.SendTo 0 4 (Example.reply 3 7 5 9 false) 4 654]⟩ :=
  ⟨by decide, by decide, (lt_trustThreshold_iff 0).mpr rfl, by decide⟩

/-- C8, amended: for a reply that is not a hello, when the trust application is present, its
table holds a record for the sender with a score below the threshold, and a route to the
reply's destination exists, the handler drops the reply: the route table is as before and no
call is made (nothing is forwarded or acknowledged). -/
theorem C8_untrusted_sender_dropped (base : Base) (rp : RoutingProtocol) (p : Packet)
    (receiver sender : Ipv4Address) (draw : ℚ) (indetNextHop indetSender : Nat) (indetNewer : Bool)
    (toDst : RoutingTableEntry) (a : SimpleAodvTrustManager) (e : TrustEntry)
    (hne : p.rrepHeader.dst ≠ p.rrepHeader.origin)
    (hroute : rp.m_routingTable.LookupRoute p.rrepHeader.dst = some toDst)
    (happ : rp.app = some a)
    (hfound : a.m_trustTable.LookupTrustEntry sender (TrustEntry.TrustEntry indetSender)
      = (true, e))
    (hlow : (e.trustValue : ℚ) < trustThreshold) :
    TrustRecvReply base rp p receiver sender draw indetNextHop indetSender indetNewer
      = some ⟨rp.m_routingTable, rp.m_addressReqTimer, []⟩ := by
  apply TrustRecvReply_veto base rp p receiver sender draw indetNextHop indetSender indetNewer toDst hne
    hroute
  rw [happ, trustVeto_some, hfound]
  exact Or.inl ((lt_trustThreshold_iff _).mp hlow)

/-- C8, amended, at a concrete input: the sender 3 is scored 0, the current next hop 2 is
scored 9, and a route to the destination 7 exists. -/
theorem C8_untrusted_sender_dropped_witness :
    TrustRecvReply Example.base
        (Example.protocol ⟨[Example.entry 7 1 4 2 true RouteFlags.VALID,
            Example.entry 9 1 2 4 true RouteFlags.VALID]⟩
          (some ⟨⟨[⟨2, 0, 9⟩, ⟨3, 0, 0⟩]⟩⟩) 0)
        (Example.replyPacket (Example.reply 2 7 5 9 true) 5) 1 3 50 0 0 false
      = some ⟨⟨[Example.entry 7 1 4 2 true RouteFlags.VALID,
            Example.entry 9 1 2 4 true RouteFlags.VALID]⟩, [], []⟩ :=
  C8_untrusted_sender_dropped Example.base
    (Example.protocol ⟨[Example.entry 7 1 4 2 true RouteFlags.VALID,
        Example.entry 9 1 2 4 true RouteFlags.VALID]⟩
      (some ⟨⟨[⟨2, 0, 9⟩, ⟨3, 0, 0⟩]⟩⟩) 0)
    (Example.replyPacket (Example.reply 2 7 5 9 true) 5) 1 3 50 0 0 false
    (Example.entry 7 1 4 2 true RouteFlags.VALID) ⟨⟨[⟨2, 0, 9⟩, ⟨3, 0, 0⟩]⟩⟩ ⟨3, 0, 0⟩
    (by decide) (by decide) rfl (by decide) ((lt_trustThreshold_iff 0).mpr rfl)

/-- C9, evaluated on the code: a route to 7 exists, the trust application is present and its
table is empty, so both lookups miss; the uninitialised score of the sender's local entry
reads 0. The handler drops the reply, whereas without a trust application the same reply
updates the route and is acknowledged. -/
theorem C9_lookup_miss_still_vetoes :
    (TrustTable.mk []).LookupTrustEntry 3 (TrustEntry.TrustEntry 0)
        = (false, TrustEntry.TrustEntry 0) ∧
      TrustRecvReply Example.base
          (Example.protocol ⟨[Example.entry 7 1 4 2 true RouteFlags.VALID]⟩ (some ⟨⟨[]⟩⟩) 0)
          (Example.replyPacket (Example.reply 2 7 5 9 true) 5) 1 3 50 1 0 false
        = some ⟨⟨[Example.entry 7 1 4 2 true RouteFlags.VALID]⟩, [], []⟩ ∧
      TrustRecvReply Example.base
          (Example.protocol ⟨[Example.entry 7 1 4 2 true RouteFlags.VALID]⟩ none 0)
          (Example.replyPacket (Example.reply 2 7 5 9 true) 5) 1 3 50 1 0 false
        = some ⟨⟨[Example.entry 7 5 3 3 true RouteFlags.VALID]⟩, [],
            [Call.SendReplyAck 3]⟩ :=
  ⟨by decide,
    TrustRecvReply_veto Example.base
      (Example.protocol ⟨[Example.entry 7 1 4 2 true RouteFlags.VALID]⟩ (some ⟨⟨[]⟩⟩) 0)
      (Example.replyPacket (Example.reply 2 7 5 9 true) 5) 1 3 50 1 0 false
      (Example.entry 7 1 4 2 true RouteFlags.VALID) (by decide) (by decide)
      ((trustVeto_some _ _ _ _ _).mpr (Or.inl (by decide))),
    by decide⟩

/-! ## Dispatch -/

/-- C10, evaluated on the code: with request-drop-probability 0, a request for destination 7
(not an address of this node) and a draw of exactly 0, the test `draw > probability` is false
and the request is dropped: `RecvRequest` is not invoked. A draw of 1 is processed. -/
theorem C10_zero_probability_zero_draw_dropped :
    Example.base.IsMyOwnAddress (Example.requestPacket 7).rreqHeader.dst = false ∧
      (Example.protocol ⟨[]⟩ none 0).m_rreqDropProbability = 0 ∧
      RecvAodv Example.base (Example.protocol ⟨[]⟩ none 0) 0 (Example.requestPacket 7) 3 0 0 0 false
        = some ⟨⟨[]⟩, [], []⟩ ∧
      RecvAodv Example.base (Example.protocol ⟨[]⟩ none 0) 0 (Example.requestPacket 7) 3 1 0 0 false
        = some ⟨⟨[]⟩, [], [Call.RecvRequest (Example.requestPacket 7) 1 3]⟩ := by
  decide

/-- C11: on a registered socket, whatever the drop probabilities and the draw are, a request
whose destination is one of this node's own addresses is handed to `RecvRequest`, a reply is
handed to `TrustRecvReply` (the outcome of the dispatcher is the outcome of that handler on the
table refreshed for the neighbour), an error is handed to `RecvError` and a
reply-acknowledgement to `RecvReplyAck`. -/
theorem C11_dispatch_gate_only_foreign_requests (base : Base) (rp : RoutingProtocol)
    (socket : Nat) (packet : Packet) (sender receiver : Ipv4Address) (draw : ℚ)
    (indetNextHop indetSender : Nat) (indetNewer : Bool) (hsock : receiverOf rp socket = some receiver) :
    (packet.tHeader = some MessageType.AODVTYPE_RREQ →
      base.IsMyOwnAddress packet.rreqHeader.dst = true →
      RecvAodv base rp socket packet sender draw indetNextHop indetSender indetNewer
        = some ⟨base.UpdateRouteToNeighbor sender receiver rp.m_routingTable,
            rp.m_addressReqTimer, [Call.RecvRequest packet receiver sender]⟩) ∧
    (packet.tHeader = some MessageType.AODVTYPE_RREP →
      RecvAodv base rp socket packet sender draw indetNextHop indetSender indetNewer
        = TrustRecvReply base
            { rp with m_routingTable :=
                base.UpdateRouteToNeighbor sender receiver rp.m_routingTable }
            packet receiver sender draw indetNextHop indetSender indetNewer) ∧
    (packet.tHeader = some MessageType.AODVTYPE_RERR →
      RecvAodv base rp socket packet sender draw indetNextHop indetSender indetNewer
        = some ⟨base.UpdateRouteToNeighbor sender receiver rp.m_routingTable,
            rp.m_addressReqTimer, [Call.RecvError packet sender]⟩) ∧
    (packet.tHeader = some MessageType.AODVTYPE_RREP_ACK →
      RecvAodv base rp socket packet sender draw indetNextHop indetSender indetNewer
        = some ⟨base.UpdateRouteToNeighbor sender receiver rp.m_routingTable,
            rp.m_addressReqTimer, [Call.RecvReplyAck sender]⟩) := by
  refine ⟨?_, ?_, ?_, ?_⟩
  · intro ht hown
    simp [RecvAodv, hsock, ht, hown]
  · intro ht
    simp [RecvAodv, hsock, ht]
  · intro ht
    simp [RecvAodv, hsock, ht]
  · intro ht
    simp [RecvAodv, hsock, ht]

/-- C11 at a concrete input: request-drop-probability 100 and draw 0, a request for this
node's own address 1 arriving on socket 0 from node 3. -/
theorem C11_dispatch_gate_only_foreign_requests_witness :
    RecvAodv Example.base (Example.protocol ⟨[]⟩ none 100) 0 (Example.requestPacket 1) 3 0 0 0 false
      = some ⟨⟨[]⟩, [], [Call.RecvRequest (Example.requestPacket 1) 1 3]⟩ :=
  (C11_dispatch_gate_only_foreign_requests Example.base (Example.protocol ⟨[]⟩ none 100) 0
    (Example.requestPacket 1) 3 1 0 0 0 false (by decide)).1 rfl (by decide)

/-! ## Data-plane selfish drop -/

/-- C15: when the receiving device has an interface, `RouteInput` returns the base protocol's
result; on return the forwarding flag of the receiving interface is what it was before the
call, whether or not the selfish drop fired and whatever the base protocol did to the flags;
and the flag the base protocol sees is false exactly when the draw is below the
data-drop-probability or the flag was already false. -/
theorem C15_forwarding_flag_restored (GetInterfaceForDevice : Nat → Int)
    (baseRouteInput : (Int → Bool) → Bool × (Int → Bool)) (rp : RoutingProtocol)
    (IsForwarding : Int → Bool) (idev : Nat) (draw : ℚ)
    (hif : GetInterfaceForDevice idev ≥ 0) :
    ∃ r, RouteInput GetInterfaceForDevice baseRouteInput rp IsForwarding idev draw = some r ∧
      r.after (GetInterfaceForDevice idev) = IsForwarding (GetInterfaceForDevice idev) ∧
      (r.during (GetInterfaceForDevice idev) = false ↔
        draw < rp.m_dataDropProbability ∨
          IsForwarding (GetInterfaceForDevice idev) = false) ∧
      (∀ j, j ≠ GetInterfaceForDevice idev → r.during j = IsForwarding j) ∧
      r.ret = (baseRouteInput r.during).1 := by
  refine ⟨_, by simp only [RouteInput, hif, if_true]; rfl, ?_, ?_, ?_, rfl⟩
  · simp [SetForwarding]
  · by_cases hd : draw < rp.m_dataDropProbability
    · simp [hd, SetForwarding]
    · simp [hd]
  · intro j hj
    by_cases hd : draw < rp.m_dataDropProbability
    · simp [hd, SetForwarding, hj]
    · simp [hd]

/-- C15 at a concrete input: device 0 on interface 0, which forwards; the draw 5 is below the
data-drop-probability 10; the base protocol returns the flag it sees and turns every flag
on. -/
theorem C15_forwarding_flag_restored_witness :
    ∃ r, RouteInput (fun _ => 0) (fun f => (f 0, fun _ => true))
        (Example.protocol ⟨[]⟩ none 10) (fun _ => true) 0 5 = some r ∧
      r.after ((fun _ => (0 : Int)) 0) = (fun _ => true) ((fun _ => (0 : Int)) 0) ∧
      (r.during ((fun _ => (0 : Int)) 0) = false ↔
        (5 : ℚ) < (Example.protocol ⟨[]⟩ none 10).m_dataDropProbability ∨
          (fun _ => true) ((fun _ => (0 : Int)) 0) = false) ∧
      (∀ j, j ≠ (fun _ => (0 : Int)) 0 → r.during j = (fun _ => true) j) ∧
      r.ret = ((fun f => (f 0, fun _ => true) : (Int → Bool) → Bool × (Int → Bool))
        r.during).1 :=
  C15_forwarding_flag_restored (fun _ => 0) (fun f => (f 0, fun _ => true))
    (Example.protocol ⟨[]⟩ none 10) (fun _ => true) 0 5 (by decide)

/-! ## Further properties of the trust table, the veto and the sequence numbers -/

/-- C18: on a non-empty table `RemoveRecord` gives the same table for any two arguments: the
table without its last record, one record shorter, the earlier records unchanged and in order;
hence `RemoveRecord (e2)` after `AddRecord (e1)` gives back the original table. -/
theorem C18_RemoveRecord_ignores_argument (t : TrustTable) (e1 e2 : TrustEntry)
    (hne : t.m_tableRecords ≠ []) :
    t.RemoveRecord e1 = t.RemoveRecord e2 ∧
      (∃ t1 last, t.RemoveRecord e1 = some t1 ∧
        t.m_tableRecords = t1.m_tableRecords ++ [last] ∧
        t1.m_tableRecords.length + 1 = t.m_tableRecords.length) ∧
      (t.AddRecord e1).RemoveRecord e2 = some t := by
  obtain ⟨l⟩ := t
  refine ⟨?_, ?_, ?_⟩
  · cases l <;> rfl
  · cases l with
    | nil => exact absurd rfl hne
    | cons r rs =>
      refine ⟨⟨(r :: rs).dropLast⟩, (r :: rs).getLast (by simp), rfl, ?_, ?_⟩
      · exact (List.dropLast_append_getLast (by simp)).symm
      · simp
  · simp only [TrustTable.AddRecord, TrustTable.RemoveRecord]
    cases hl : l ++ [e1] with
    | nil => simp at hl
    | cons r rs =>
      simp only [Option.some.injEq, TrustTable.mk.injEq]
      rw [← hl, List.dropLast_concat]

/-- C18 at a concrete input: the table [10, 20] with the arguments 10 and 30. -/
theorem C18_RemoveRecord_ignores_argument_witness :
    (TrustTable.mk [⟨10, 0, 1⟩, ⟨20, 0, 2⟩]).RemoveRecord ⟨10, 0, 1⟩
      = (TrustTable.mk [⟨10, 0, 1⟩, ⟨20, 0, 2⟩]).RemoveRecord ⟨30, 0, 3⟩ :=
  (C18_RemoveRecord_ignores_argument ⟨[⟨10, 0, 1⟩, ⟨20, 0, 2⟩]⟩ ⟨10, 0, 1⟩ ⟨30, 0, 3⟩
    (by decide)).1

/-- C19: with the trust application present, the veto fires exactly when the score read for
the sender or the score read for the current next hop is 0; a score of 1 or more is never
below the threshold, and without the application the veto never fires. -/
theorem C19_veto_iff_score_zero (a : SimpleAodvTrustManager)
    (actualNextHop sender : Ipv4Address) (indetNextHop indetSender : Nat) :
    (trustVeto (some a) actualNextHop sender indetNextHop indetSender = true ↔
      (a.m_trustTable.LookupTrustEntry sender
          (TrustEntry.TrustEntry indetSender)).2.GetTrustValue = 0 ∨
        (a.m_trustTable.LookupTrustEntry actualNextHop
          (TrustEntry.TrustEntry indetNextHop)).2.GetTrustValue = 0) ∧
      (∀ v : Nat, 1 ≤ v → ¬ ((v : ℚ) < trustThreshold)) ∧
      ((0 : Nat) : ℚ) < trustThreshold ∧
      trustVeto none actualNextHop sender indetNextHop indetSender = false := by
  refine ⟨trustVeto_some a actualNextHop sender indetNextHop indetSender, ?_, ?_, rfl⟩
  · intro v hv hlt
    have := (lt_trustThreshold_iff v).mp hlt
    omega
  · exact (lt_trustThreshold_iff 0).mpr rfl

/-! ## The reply handler beyond the route update -/

/-- C12: a reply that is not a hello and whose origin is one of this node's own addresses is
never forwarded. The handler returns an outcome whose calls are at most an acknowledgement to
the sender (only when the reply asked for one) and the flush of the queue for the destination;
no reply is sent on; and the outcome is the same for every draw, every
reply-drop-probability and every time-to-live. -/
theorem C12_own_origin_never_forwarded (base : Base) (rp : RoutingProtocol) (p : Packet)
    (receiver sender : Ipv4Address) (draw : ℚ) (indetNextHop indetSender : Nat) (indetNewer : Bool)
    (hne : p.rrepHeader.dst ≠ p.rrepHeader.origin)
    (hown : base.IsMyOwnAddress p.rrepHeader.origin = true) :
    ∃ o, TrustRecvReply base rp p receiver sender draw indetNextHop indetSender indetNewer = some o ∧
      (∀ c ∈ o.calls, (c = Call.SendReplyAck sender ∧ p.rrepHeader.ackRequired = true) ∨
        ∃ route, c = Call.SendPacketFromQueue p.rrepHeader.dst route) ∧
      (∀ socket ttl rrepHeader dest port,
        Call.SendTo socket ttl rrepHeader dest port ∉ o.calls) ∧
      (∀ (draw1 q : ℚ) (ttl1 : Nat),
        TrustRecvReply base { rp with m_rrepDropProbability := q } { p with ttl := ttl1 }
          receiver sender draw1 indetNextHop indetSender indetNewer = some o) := by
  have hne1 : (p.rrepHeader.dst == p.rrepHeader.origin) = false := by simpa using hne
  have hcalls : ∀ o : Outcome,
      (∀ c ∈ o.calls, (c = Call.SendReplyAck sender ∧ p.rrepHeader.ackRequired = true) ∨
        ∃ route, c = Call.SendPacketFromQueue p.rrepHeader.dst route) →
      ∀ socket ttl rrepHeader dest port,
        Call.SendTo socket ttl rrepHeader dest port ∉ o.calls := by
    intro o ho socket ttl rrepHeader dest port hmem
    rcases ho _ hmem with ⟨h, _⟩ | ⟨route, h⟩ <;> cases h
  by_cases hv : ((rp.m_routingTable.LookupRoute p.rrepHeader.dst).isSome &&
      trustVeto rp.app ((rp.m_routingTable.LookupRoute p.rrepHeader.dst).getD
        base.defaultEntry).nextHop sender indetNextHop indetSender) = true
  · refine ⟨⟨rp.m_routingTable, rp.m_addressReqTimer, []⟩, ?_, ?_, ?_, ?_⟩
    · unfold TrustRecvReply TrustRecvReply.rrepHeader
      simp only [hne1, hv]
      simp
    · intro c hc
      simp at hc
    · intro socket ttl rrepHeader dest port hmem
      simp at hmem
    · intro draw1 q ttl1
      unfold TrustRecvReply TrustRecvReply.rrepHeader
      simp only [hne1, hv]
      simp
  · have hv1 : ((rp.m_routingTable.LookupRoute p.rrepHeader.dst).isSome &&
        trustVeto rp.app ((rp.m_routingTable.LookupRoute p.rrepHeader.dst).getD
          base.defaultEntry).nextHop sender indetNextHop indetSender) = false := by
      simpa using hv
    have hreturns : ∃ o, TrustRecvReply base rp p receiver sender draw indetNextHop
        indetSender indetNewer = some o ∧
        (∀ c ∈ o.calls, (c = Call.SendReplyAck sender ∧ p.rrepHeader.ackRequired = true) ∨
          ∃ route, c = Call.SendPacketFromQueue p.rrepHeader.dst route) ∧
        (∀ (draw1 q : ℚ) (ttl1 : Nat),
          TrustRecvReply base { rp with m_rrepDropProbability := q } { p with ttl := ttl1 }
            receiver sender draw1 indetNextHop indetSender indetNewer = some o) := by
      unfold TrustRecvReply afterRouteUpdate TrustRecvReply.newEntry
        TrustRecvReply.rrepHeader TrustRecvReply.hop
      simp only [hne1, hv1, hown]
      refine ⟨_, by simp; rfl, ?_, ?_⟩
      · intro c hc
        by_cases hack : p.rrepHeader.ackRequired = true
        · simp [hack] at hc ⊢
          rcases hc with h | h
          · exact Or.inl h
          · exact Or.inr ⟨_, h⟩
        · simp [hack] at hc ⊢
          exact ⟨_, hc⟩
      · intro draw1 q ttl1
        simp
    obtain ⟨o, h1, h2, h3⟩ := hreturns
    exact ⟨o, h1, h2, hcalls o h2, h3⟩

/-- C12 at a concrete input: node 1 is the origin of the reply it receives from node 3 for
destination 7; the reply asks for an acknowledgement and carries time-to-live 5. -/
theorem C12_own_origin_never_forwarded_witness :
    ∃ o, TrustRecvReply Example.base (Example.protocol ⟨[]⟩ none 0)
        (Example.replyPacket (Example.reply 2 7 5 1 true) 5) 1 3 50 0 0 false = some o ∧
      ∀ socket ttl rrepHeader dest port,
        Call.SendTo socket ttl rrepHeader dest port ∉ o.calls :=
  match C12_own_origin_never_forwarded Example.base (Example.protocol ⟨[]⟩ none 0)
    (Example.replyPacket (Example.reply 2 7 5 1 true) 5) 1 3 50 0 0 false (by decide)
    (by decide) with
  | ⟨o, h1, _, h3, _⟩ => ⟨o, h1, h3⟩

/-! ### Route entries and precursors -/

@[simp]
theorem RoutingTableEntry.InsertPrecursor_dst (rt : RoutingTableEntry) (id : Ipv4Address) :
    (rt.InsertPrecursor id).dst = rt.dst := by
  unfold RoutingTableEntry.InsertPrecursor
  split <;> rfl

@[simp]
theorem RoutingTableEntry.InsertPrecursor_nextHop (rt : RoutingTableEntry) (id : Ipv4Address) :
    (rt.InsertPrecursor id).nextHop = rt.nextHop := by
  unfold RoutingTableEntry.InsertPrecursor
  split <;> rfl

@[simp]
theorem RoutingTableEntry.InsertPrecursor_iface (rt : RoutingTableEntry) (id : Ipv4Address) :
    (rt.InsertPrecursor id).iface = rt.iface := by
  unfold RoutingTableEntry.InsertPrecursor
  split <;> rfl

@[simp]
theorem RoutingTableEntry.InsertPrecursor_hop (rt : RoutingTableEntry) (id : Ipv4Address) :
    (rt.InsertPrecursor id).hop = rt.hop := by
  unfold RoutingTableEntry.InsertPrecursor
  split <;> rfl

@[simp]
theorem RoutingTableEntry.InsertPrecursor_seqNo (rt : RoutingTableEntry) (id : Ipv4Address) :
    (rt.InsertPrecursor id).seqNo = rt.seqNo := by
  unfold RoutingTableEntry.InsertPrecursor
  split <;> rfl

@[simp]
theorem RoutingTableEntry.InsertPrecursor_lifeTime (rt : RoutingTableEntry) (id : Ipv4Address) :
    (rt.InsertPrecursor id).lifeTime = rt.lifeTime := by
  unfold RoutingTableEntry.InsertPrecursor
  split <;> rfl

theorem RoutingTableEntry.mem_InsertPrecursor_self (rt : RoutingTableEntry)
    (id : Ipv4Address) : id ∈ (rt.InsertPrecursor id).precursorList := by
  unfold RoutingTableEntry.InsertPrecursor
  split
  · assumption
  · simp

theorem RoutingTableEntry.mem_InsertPrecursor_of_mem (rt : RoutingTableEntry)
    (id x : Ipv4Address) (h : x ∈ rt.precursorList) :
    x ∈ (rt.InsertPrecursor id).precursorList := by
  unfold RoutingTableEntry.InsertPrecursor
  split
  · exact h
  · simp [h]

theorem RoutingTableEntry.InsertPrecursor_of_mem (rt : RoutingTableEntry) (id : Ipv4Address)
    (h : id ∈ rt.precursorList) : rt.InsertPrecursor id = rt := by
  unfold RoutingTableEntry.InsertPrecursor
  simp [h]

theorem RoutingTableEntry.InsertPrecursor_idem (rt : RoutingTableEntry) (id : Ipv4Address) :
    (rt.InsertPrecursor id).InsertPrecursor id = rt.InsertPrecursor id :=
  RoutingTableEntry.InsertPrecursor_of_mem _ _
    (RoutingTableEntry.mem_InsertPrecursor_self rt id)

theorem RoutingTable.LookupRoute_dst (t : RoutingTable) (d : Ipv4Address)
    (e : RoutingTableEntry) (h : t.LookupRoute d = some e) : e.dst = d := by
  have := List.find?_some h
  simpa using this

theorem RoutingTable.LookupRoute_Update (t : RoutingTable) (rt : RoutingTableEntry)
    (d : Ipv4Address) :
    (t.Update rt).LookupRoute d =
      if d = rt.dst then (t.LookupRoute d).map (fun _ => rt) else t.LookupRoute d := by
  by_cases hd : d = rt.dst
  · subst hd
    simp only [if_true]
    cases hl : t.LookupRoute rt.dst with
    | some e => simpa using RoutingTable.LookupRoute_Update_self t rt e hl
    | none =>
      obtain ⟨l⟩ := t
      simp only [RoutingTable.LookupRoute, RoutingTable.Update, Option.map_none'] at hl ⊢
      rw [List.find?_eq_none] at hl ⊢
      intro x hx
      rw [List.mem_map] at hx
      obtain ⟨y, hy, rfl⟩ := hx
      have := hl y hy
      split
      · next h => exact absurd h this
      · exact this
  · simp only [hd, if_false]
    exact RoutingTable.LookupRoute_Update_of_ne t rt d hd

theorem RoutingTable.LookupRoute_AddRoute (t : RoutingTable) (rt : RoutingTableEntry)
    (d : Ipv4Address) (h : t.LookupRoute rt.dst = none) :
    (t.AddRoute rt).LookupRoute d = if d = rt.dst then some rt else t.LookupRoute d := by
  obtain ⟨l⟩ := t
  simp only [RoutingTable.AddRoute, h]
  simp only [RoutingTable.LookupRoute] at h ⊢
  rw [List.find?_append]
  by_cases hd : d = rt.dst
  · subst hd
    simp [h]
  · have h1 : (rt.dst == d) = false := by simpa using fun hh => hd hh.symm
    simp only [hd, if_false, List.find?, h1]
    cases l.find? (fun e => e.dst == d) <;> rfl

theorem updatePrecursors_snd_iface (base : Base) (t : RoutingTable) (dst : Ipv4Address)
    (toOrigin : RoutingTableEntry) :
    (updatePrecursors base t dst toOrigin).2.iface = toOrigin.iface := by
  unfold updatePrecursors
  split <;> simp

theorem updatePrecursors_snd_nextHop (base : Base) (t : RoutingTable) (dst : Ipv4Address)
    (toOrigin : RoutingTableEntry) :
    (updatePrecursors base t dst toOrigin).2.nextHop = toOrigin.nextHop := by
  unfold updatePrecursors
  split <;> simp

/-! ### Time-to-live and hop count -/

/-- C13 as stated fails at a received time-to-live of 2: the decremented value 1 is below 2,
yet the reply is forwarded, carrying time-to-live 1. -/
theorem C13_ttl_two_counterexample :
    TrustRecvReply Example.base
        (Example.protocol ⟨[Example.entry 9 1 2 4 true RouteFlags.VALID]⟩ none 0)
        (Example.replyPacket (Example.reply 2 7 5 9 false) 2) 1 3 50 0 0 false
      = some ⟨⟨[{ Example.entry 9 1 2 4 true RouteFlags.VALID with precursorList := [3] },
            { Example.entry 7 5 3 3 true RouteFlags.VALID with precursorList := [4] }]⟩, [],
          [Call.SendTo 0 1 (Example.reply 3 7 5 9 false) 4 654]⟩ := by
  decide

/-- C13, amended: once the handler is past the selfish drop and has a route `found` to the
origin that is not in-search, the reply is dropped when the received time-to-live is below 2;
otherwise, the socket of the return route being bound, it is forwarded to the next hop toward
the origin carrying exactly the received time-to-live minus one. -/
theorem C13_ttl_gate (base : Base) (rp : RoutingProtocol) (t : RoutingTable)
    (calls : List Call) (p : Packet) (rrepHeader : RrepHeader) (dst : Ipv4Address) (draw : ℚ)
    (found : RoutingTableEntry)
    (hdraw : ¬ draw < rp.m_rrepDropProbability)
    (hroute : t.LookupRoute rrepHeader.origin = some found)
    (hflag : found.flag ≠ RouteFlags.IN_SEARCH)
    (httl : p.ttl < 256) :
    (p.ttl < 2 →
      ∃ t2, forwardReply base rp t calls p rrepHeader dst draw
        = some ⟨t2, rp.m_addressReqTimer, calls⟩) ∧
    (2 ≤ p.ttl → ∀ socket, base.FindSocketWithInterfaceAddress found.iface = some socket →
      ∃ t2, forwardReply base rp t calls p rrepHeader dst draw
        = some ⟨t2, rp.m_addressReqTimer,
            calls ++ [Call.SendTo socket (p.ttl - 1) rrepHeader found.nextHop AODV_PORT]⟩) := by
  have hf : (found.flag == RouteFlags.IN_SEARCH) = false := by simpa using hflag
  have hi := updatePrecursors_snd_iface base
    (t.Update { found with lifeTime := max rp.m_activeRouteTimeout found.lifeTime }) dst
    { found with lifeTime := max rp.m_activeRouteTimeout found.lifeTime }
  have hn := updatePrecursors_snd_nextHop base
    (t.Update { found with lifeTime := max rp.m_activeRouteTimeout found.lifeTime }) dst
    { found with lifeTime := max rp.m_activeRouteTimeout found.lifeTime }
  constructor
  · intro hlt
    unfold forwardReply
    simp only [hdraw, if_false, hroute, hf, Bool.false_eq_true, hlt, if_true]
    exact ⟨_, rfl⟩
  · intro hge socket hsock
    have hlt : ¬ p.ttl < 2 := by omega
    have hmod : (p.ttl - 1) % 256 = p.ttl - 1 := by omega
    unfold forwardReply
    simp only [hdraw, if_false, hroute, hf, Bool.false_eq_true, hlt]
    simp only [] at hi hn
    rw [hi, hn, hsock, hmod]
    exact ⟨_, rfl⟩

/-- C13, amended, at a concrete input: a received time-to-live of 5 is forwarded as 4. -/
theorem C13_ttl_gate_witness :
    ∃ t2, forwardReply Example.base
        (Example.protocol ⟨[Example.entry 9 1 2 4 true RouteFlags.VALID]⟩ none 0)
        ⟨[Example.entry 9 1 2 4 true RouteFlags.VALID]⟩ []
        (Example.replyPacket (Example.reply 2 7 5 9 false) 5) (Example.reply 3 7 5 9 false) 7 50
      = some ⟨t2, [], [] ++ [Call.SendTo 0 (5 - 1) (Example.reply 3 7 5 9 false) 4 AODV_PORT]⟩ :=
  (C13_ttl_gate Example.base
    (Example.protocol ⟨[Example.entry 9 1 2 4 true RouteFlags.VALID]⟩ none 0)
    ⟨[Example.entry 9 1 2 4 true RouteFlags.VALID]⟩ []
    (Example.replyPacket (Example.reply 2 7 5 9 false) 5) (Example.reply 3 7 5 9 false) 7 50
    (Example.entry 9 1 2 4 true RouteFlags.VALID) (by decide) (by decide) (by decide)
    (by decide)).2 (by decide) 0 (by decide)

theorem forwardReply_calls (base : Base) (rp : RoutingProtocol) (t : RoutingTable)
    (calls : List Call) (p : Packet) (rrepHeader : RrepHeader) (dst : Ipv4Address) (draw : ℚ)
    (o : Outcome) (h : forwardReply base rp t calls p rrepHeader dst draw = some o) :
    o.calls = calls ∨
      ∃ socket ttl dest, o.calls = calls ++ [Call.SendTo socket ttl rrepHeader dest AODV_PORT] := by
  unfold forwardReply at h
  split at h
  · simp only [Option.some.injEq] at h
    subst h
    exact Or.inl rfl
  · split at h
    · simp only [Option.some.injEq] at h
      subst h
      exact Or.inl rfl
    · split at h
      · simp only [Option.some.injEq] at h
        subst h
        exact Or.inl rfl
      · simp only [] at h
        split at h
        · simp only [Option.some.injEq] at h
          subst h
          exact Or.inl rfl
        · split at h
          · exact absurd h (by simp)
          · simp only [Option.some.injEq] at h
            subst h
            exact Or.inr ⟨_, _, _, rfl⟩

/-! ### Precursor bookkeeping -/

theorem RoutingTable.LookupRoute_Update_nextHop (t : RoutingTable) (d0 : RoutingTableEntry)
    (k x key : Ipv4Address) (E : RoutingTableEntry) (hE : t.LookupRoute key = some E)
    (hd0 : d0.dst ≠ key) :
    (t.Update (((t.LookupRoute k).getD d0).InsertPrecursor x)).LookupRoute key
      = some (if k = key then E.InsertPrecursor x else E) := by
  rw [RoutingTable.LookupRoute_Update]
  cases h : t.LookupRoute k with
  | some e =>
    have hk := RoutingTable.LookupRoute_dst t k e h
    simp only [Option.getD_some, RoutingTableEntry.InsertPrecursor_dst, hk]
    by_cases hkey : key = k
    · subst hkey
      rw [hE] at h
      cases h
      simp [hE]
    · have hkey1 : ¬ k = key := fun hh => hkey hh.symm
      simp [hkey, hkey1, hE]
  | none =>
    have hkey : ¬ k = key := by
      intro hh
      rw [hh, hE] at h
      cases h
    have hkey1 : ¬ key = d0.dst := fun hh => hd0 hh.symm
    simp [hkey, hkey1, hE]

theorem updatePrecursors_spec (base : Base) (t : RoutingTable) (D : Ipv4Address)
    (TO N0 : RoutingTableEntry) (hDO : D ≠ TO.dst) (hD : t.LookupRoute D = some N0)
    (hvalid : N0.flag = RouteFlags.VALID) (hO : t.LookupRoute TO.dst = some TO)
    (hd0D : base.defaultEntry.dst ≠ D) (hd0O : base.defaultEntry.dst ≠ TO.dst) :
    (updatePrecursors base t D TO).2 = TO.InsertPrecursor N0.nextHop ∧
      (updatePrecursors base t D TO).1.LookupRoute TO.dst
        = some (TO.InsertPrecursor N0.nextHop) ∧
      ((updatePrecursors base t D TO).1.LookupRoute D
          = some (N0.InsertPrecursor TO.nextHop) ∨
        (updatePrecursors base t D TO).1.LookupRoute D
          = some ((N0.InsertPrecursor TO.nextHop).InsertPrecursor N0.nextHop)) := by
  have hv : t.LookupValidRoute D = some (N0, true) := by
    simp [RoutingTable.LookupValidRoute, hD, hvalid]
  have hND : N0.dst = D := RoutingTable.LookupRoute_dst t D N0 hD
  have hOD : ¬ TO.dst = D := fun hh => hDO hh.symm
  -- after the update of the route to the destination
  have h1D : (t.Update (N0.InsertPrecursor TO.nextHop)).LookupRoute D
      = some (N0.InsertPrecursor TO.nextHop) := by
    rw [RoutingTable.LookupRoute_Update]
    simp [hND, hD]
  have h1O : (t.Update (N0.InsertPrecursor TO.nextHop)).LookupRoute TO.dst = some TO := by
    rw [RoutingTable.LookupRoute_Update]
    simp [hND, hOD, hO]
  -- after the update of the entry of the next hop toward the destination
  have h2D := RoutingTable.LookupRoute_Update_nextHop _ base.defaultEntry N0.nextHop
    TO.nextHop D _ h1D hd0D
  have h2O := RoutingTable.LookupRoute_Update_nextHop _ base.defaultEntry N0.nextHop
    TO.nextHop TO.dst _ h1O hd0O
  rw [RoutingTableEntry.InsertPrecursor_idem, ite_self] at h2D
  -- after the update of the route to the origin
  have h3O := RoutingTable.LookupRoute_Update_self _ (TO.InsertPrecursor N0.nextHop) _
    (by rw [RoutingTableEntry.InsertPrecursor_dst]; exact h2O)
  rw [RoutingTableEntry.InsertPrecursor_dst] at h3O
  have h3D : ((((t.Update (N0.InsertPrecursor TO.nextHop)).Update
      (((t.Update (N0.InsertPrecursor TO.nextHop)).LookupRoute N0.nextHop).getD
        base.defaultEntry |>.InsertPrecursor TO.nextHop)).Update
      (TO.InsertPrecursor N0.nextHop)).LookupRoute D)
      = some (N0.InsertPrecursor TO.nextHop) := by
    rw [RoutingTable.LookupRoute_Update_of_ne _ _ _ (by simpa using hDO)]
    exact h2D
  -- after the update of the entry of the next hop toward the origin
  have h4D := RoutingTable.LookupRoute_Update_nextHop _ base.defaultEntry TO.nextHop
    N0.nextHop D _ h3D hd0D
  have h4O := RoutingTable.LookupRoute_Update_nextHop _ base.defaultEntry TO.nextHop
    N0.nextHop TO.dst _ h3O hd0O
  rw [RoutingTableEntry.InsertPrecursor_idem, ite_self] at h4O
  unfold updatePrecursors
  rw [hv]
  simp only [RoutingTableEntry.InsertPrecursor_nextHop]
  refine ⟨trivial, h4O, ?_⟩
  by_cases hX : TO.nextHop = D
  · right
    rw [h4D, if_pos hX]
  · left
    rw [h4D, if_neg hX]

theorem forwardReply_forwards (base : Base) (rp : RoutingProtocol) (t : RoutingTable)
    (calls : List Call) (p : Packet) (rrepHeader : RrepHeader) (D : Ipv4Address) (draw : ℚ)
    (found N0 : RoutingTableEntry) (socket : Nat)
    (hdraw : ¬ draw < rp.m_rrepDropProbability)
    (hroute : t.LookupRoute rrepHeader.origin = some found)
    (hflag : found.flag ≠ RouteFlags.IN_SEARCH)
    (hD : t.LookupRoute D = some N0) (hvalid : N0.flag = RouteFlags.VALID)
    (hDO : D ≠ rrepHeader.origin)
    (hd0D : base.defaultEntry.dst ≠ D) (hd0O : base.defaultEntry.dst ≠ rrepHeader.origin)
    (httl : 2 ≤ p.ttl)
    (hsock : base.FindSocketWithInterfaceAddress found.iface = some socket) :
    ∃ o, forwardReply base rp t calls p rrepHeader D draw = some o ∧
      o.m_addressReqTimer = rp.m_addressReqTimer ∧
      o.calls = calls ++
        [Call.SendTo socket ((p.ttl - 1) % 256) rrepHeader found.nextHop AODV_PORT] ∧
      o.m_routingTable.LookupRoute rrepHeader.origin
        = some (RoutingTableEntry.InsertPrecursor
            { found with lifeTime := max rp.m_activeRouteTimeout found.lifeTime }
            N0.nextHop) ∧
      (o.m_routingTable.LookupRoute D = some (N0.InsertPrecursor found.nextHop) ∨
        o.m_routingTable.LookupRoute D
          = some ((N0.InsertPrecursor found.nextHop).InsertPrecursor N0.nextHop)) := by
  have hf : (found.flag == RouteFlags.IN_SEARCH) = false := by simpa using hflag
  have hfd : found.dst = rrepHeader.origin := RoutingTable.LookupRoute_dst t _ found hroute
  have hlt : ¬ p.ttl < 2 := by omega
  have h1D : (t.Update
      { found with lifeTime := max rp.m_activeRouteTimeout found.lifeTime }).LookupRoute D
      = some N0 := by
    rw [RoutingTable.LookupRoute_Update_of_ne _ _ _ (by rw [hfd]; exact hDO)]
    exact hD
  have h1O : (t.Update
      { found with lifeTime := max rp.m_activeRouteTimeout found.lifeTime }).LookupRoute
        (RoutingTableEntry.dst
          { found with lifeTime := max rp.m_activeRouteTimeout found.lifeTime })
      = some { found with lifeTime := max rp.m_activeRouteTimeout found.lifeTime } :=
    RoutingTable.LookupRoute_Update_self _ _ found (by rw [hfd]; exact hroute)
  have spec := updatePrecursors_spec base
    (t.Update { found with lifeTime := max rp.m_activeRouteTimeout found.lifeTime }) D
    { found with lifeTime := max rp.m_activeRouteTimeout found.lifeTime } N0
    (by rw [hfd]; exact hDO) h1D hvalid h1O hd0D (by rw [hfd]; exact hd0O)
  obtain ⟨s2, sO, sD⟩ := spec
  have hi := updatePrecursors_snd_iface base
    (t.Update { found with lifeTime := max rp.m_activeRouteTimeout found.lifeTime }) D
    { found with lifeTime := max rp.m_activeRouteTimeout found.lifeTime }
  have hn := updatePrecursors_snd_nextHop base
    (t.Update { found with lifeTime := max rp.m_activeRouteTimeout found.lifeTime }) D
    { found with lifeTime := max rp.m_activeRouteTimeout found.lifeTime }
  simp only [] at hi hn
  unfold forwardReply
  simp only [hdraw, if_false, hroute, hf, Bool.false_eq_true, hlt]
  rw [hi, hn, hsock]
  refine ⟨_, rfl, rfl, rfl, ?_, sD⟩
  rw [← hfd]
  exact sO

/-! ### End to end -/

/-- C14 as stated fails when the node has no route to the origin: with an empty route table,
everything else as in the claim, the route to destination 7 is inserted (next hop 3, hop count
3, sequence number 5) but nothing is forwarded and no precursor is recorded. -/
theorem C14_no_return_route_counterexample :
    (RoutingTable.mk []).LookupRoute 7 = none ∧
      Example.base.IsMyOwnAddress (Example.reply 2 7 5 9 false).origin = false ∧
      TrustRecvReply Example.base (Example.protocol ⟨[]⟩ none 0)
          (Example.replyPacket (Example.reply 2 7 5 9 false) 5) 1 3 50 0 0 false
        = some ⟨⟨[Example.entry 7 5 3 3 true RouteFlags.VALID]⟩, [], []⟩ := by
  decide

/-- C14, amended: node N has no route to D, the reply for D (not a hello, N not its origin)
has hop count 2, sequence number 5, no acknowledgement request and time-to-live 5, the
reply-drop-probability is 0 and the draw is not negative; in addition N has a route `found` to
the origin that is not in-search and whose interface has a bound socket, and the destination
of a default-constructed route entry is neither D nor the origin. Then the handler forwards
exactly one reply, to the next hop toward the origin, with time-to-live 4 and hop count 3;
afterwards the route to D goes through the sender with hop count 3 and sequence number 5 and
has the next hop toward the origin as a precursor, and the route to the origin has the sender
as a precursor. This holds with or without a trust application. -/
theorem C14_end_to_end (base : Base) (rp : RoutingProtocol) (p : Packet)
    (receiver sender : Ipv4Address) (draw : ℚ) (indetNextHop indetSender : Nat) (indetNewer : Bool)
    (found : RoutingTableEntry) (socket : Nat)
    (hhop : p.rrepHeader.hopCount = 2) (hseq : p.rrepHeader.dstSeqno = 5)
    (hack : p.rrepHeader.ackRequired = false) (httl : p.ttl = 5)
    (hnoroute : rp.m_routingTable.LookupRoute p.rrepHeader.dst = none)
    (hnotown : base.IsMyOwnAddress p.rrepHeader.origin = false)
    (hdrop : rp.m_rrepDropProbability = 0) (hdraw : 0 ≤ draw)
    (hne : p.rrepHeader.dst ≠ p.rrepHeader.origin)
    (horigin : rp.m_routingTable.LookupRoute p.rrepHeader.origin = some found)
    (hflag : found.flag ≠ RouteFlags.IN_SEARCH)
    (hsock : base.FindSocketWithInterfaceAddress found.iface = some socket)
    (hd0D : base.defaultEntry.dst ≠ p.rrepHeader.dst)
    (hd0O : base.defaultEntry.dst ≠ p.rrepHeader.origin) :
    ∃ o eD eO,
      TrustRecvReply base rp p receiver sender draw indetNextHop indetSender indetNewer = some o ∧
      o.calls = [Call.SendTo socket 4
        { p.rrepHeader with hopCount := 3, ackRequired := false } found.nextHop AODV_PORT] ∧
      o.m_routingTable.LookupRoute p.rrepHeader.dst = some eD ∧
      eD.nextHop = sender ∧ eD.hop = 3 ∧ eD.seqNo = 5 ∧
      found.nextHop ∈ eD.precursorList ∧
      o.m_routingTable.LookupRoute p.rrepHeader.origin = some eO ∧
      eO.nextHop = found.nextHop ∧ sender ∈ eO.precursorList := by
  have hne1 : (p.rrepHeader.dst == p.rrepHeader.origin) = false := by simpa using hne
  have hno : ¬ draw < rp.m_rrepDropProbability := by rw [hdrop]; exact not_lt.mpr hdraw
  have hOD : ¬ p.rrepHeader.origin = p.rrepHeader.dst := fun hh => hne hh.symm
  obtain ⟨o, ho, -, hcalls, hO, hD⟩ := forwardReply_forwards base rp
    (rp.m_routingTable.AddRoute
      { device := base.GetNetDevice (base.GetInterfaceForAddress receiver),
        dst := p.rrepHeader.dst, validSeqNo := true, seqNo := p.rrepHeader.dstSeqno,
        iface := base.GetAddress (base.GetInterfaceForAddress receiver) 0,
        hop := 3, nextHop := sender, lifeTime := p.rrepHeader.lifeTime,
        flag := RouteFlags.VALID, precursorList := [] })
    [] p { p.rrepHeader with hopCount := 3, ackRequired := false } p.rrepHeader.dst draw found
    { device := base.GetNetDevice (base.GetInterfaceForAddress receiver),
      dst := p.rrepHeader.dst, validSeqNo := true, seqNo := p.rrepHeader.dstSeqno,
      iface := base.GetAddress (base.GetInterfaceForAddress receiver) 0,
      hop := 3, nextHop := sender, lifeTime := p.rrepHeader.lifeTime,
      flag := RouteFlags.VALID, precursorList := [] }
    socket hno
    (by rw [RoutingTable.LookupRoute_AddRoute _ _ _ hnoroute]; simp [hOD, horigin])
    hflag
    (by rw [RoutingTable.LookupRoute_AddRoute _ _ _ hnoroute]; simp)
    rfl hne hd0D hd0O (by omega) hsock
  have hrun : TrustRecvReply base rp p receiver sender draw indetNextHop indetSender indetNewer
      = some o := by
    rw [← ho]
    unfold TrustRecvReply afterRouteUpdate TrustRecvReply.newEntry TrustRecvReply.rrepHeader
      TrustRecvReply.hop
    simp [hne1, hnoroute, hnotown, hack, hhop]
  simp only [httl] at hcalls
  rcases hD with hD | hD
  · exact ⟨o, _, _, hrun, by simpa using hcalls, hD, by simp, by simp, by simp [hseq],
      RoutingTableEntry.mem_InsertPrecursor_self _ _, hO, by simp,
      RoutingTableEntry.mem_InsertPrecursor_self _ _⟩
  · exact ⟨o, _, _, hrun, by simpa using hcalls, hD, by simp, by simp, by simp [hseq],
      RoutingTableEntry.mem_InsertPrecursor_of_mem _ _ _
        (RoutingTableEntry.mem_InsertPrecursor_self _ _), hO, by simp,
      RoutingTableEntry.mem_InsertPrecursor_self _ _⟩

/-- C14, amended, at a concrete input: node 1 holds a route to the origin 9 through node 4 and
receives from node 3 a reply for destination 7. -/
theorem C14_end_to_end_witness :
    ∃ o, TrustRecvReply Example.base
        (Example.protocol ⟨[Example.entry 9 1 2 4 true RouteFlags.VALID]⟩ none 0)
        (Example.replyPacket (Example.reply 2 7 5 9 false) 5) 1 3 50 0 0 false = some o ∧
      o.calls = [Call.SendTo 0 4 (Example.reply 3 7 5 9 false) 4 AODV_PORT] :=
  match C14_end_to_end Example.base
    (Example.protocol ⟨[Example.entry 9 1 2 4 true RouteFlags.VALID]⟩ none 0)
    (Example.replyPacket (Example.reply 2 7 5 9 false) 5) 1 3 50 0 0 false
    (Example.entry 9 1 2 4 true RouteFlags.VALID) 0 rfl rfl rfl rfl (by decide) (by decide)
    rfl (by decide) (by decide) (by decide) (by decide) (by decide) (by decide)
    (by decide) with
  | ⟨o, _, _, h1, h2, _⟩ => ⟨o, h1, h2⟩

/-- C17, evaluated on the code: node 1 holds valid routes to the destination 7 through node 9,
to the origin 9 through node 4, and to node 4; a reply for 7 with origin 9 arrives from node 3
with the sequence number and a hop count that do not replace the route to 7. The reply is
forwarded to 4, and afterwards the entry for the destination's next hop (the entry for 9) has
the single precursor 9: the next hop toward the origin, 4, written into it first, is
overwritten by the stale local copy of the route to the origin. -/
theorem C17_precursor_lost_when_next_hop_is_origin :
    TrustRecvReply Example.base
        (Example.protocol ⟨[Example.entry 7 5 2 9 true RouteFlags.VALID,
            Example.entry 9 1 2 4 true RouteFlags.VALID,
            Example.entry 4 1 1 4 true RouteFlags.VALID]⟩ none 0)
        (Example.replyPacket (Example.reply 2 7 5 9 false) 5) 1 3 50 0 0 false
      = some ⟨⟨[{ Example.entry 7 5 2 9 true RouteFlags.VALID with precursorList := [4] },
            { Example.entry 9 1 2 4 true RouteFlags.VALID with precursorList := [9] },
            { Example.entry 4 1 1 4 true RouteFlags.VALID with precursorList := [9] }]⟩, [],
          [Call.SendTo 0 4 (Example.reply 3 7 5 9 false) 4 654]⟩ ∧
      (4 : Ipv4Address) ∉
        ({ Example.entry 9 1 2 4 true RouteFlags.VALID with precursorList := [9] } :
          RoutingTableEntry).precursorList := by
  decide

/-! ## The sequence-number comparison and the acceptance step -/

theorem seqNewer_of_range (a b : Nat) (indetNewer : Bool) (ha : a < 2 ^ 32) (hb : b < 2 ^ 32)
    (hr : -(2 ^ 31) ≤ int32_t a - int32_t b ∧ int32_t a - int32_t b < 2 ^ 31) :
    seqNewer a b indetNewer = true ↔
      1 ≤ (a + 2 ^ 32 - b) % 2 ^ 32 ∧ (a + 2 ^ 32 - b) % 2 ^ 32 ≤ 2 ^ 31 - 1 := by
  unfold seqNewer seqDiff
  rw [if_pos hr]
  simp only [gt_iff_lt, decide_eq_true_eq]
  unfold int32_t at hr ⊢
  norm_num at ha hb hr ⊢
  split_ifs at hr ⊢ <;> omega

theorem seqNewer_self (S : Nat) (indetNewer : Bool) : seqNewer S S indetNewer = false := by
  unfold seqNewer seqDiff
  simp

/-- C5 as stated fails: the existing route has a valid sequence number 4294967295, is flagged
valid and has hop count 1; the candidate has sequence number 0 and hop count 5. None of (a)-(d)
holds with "strictly greater" read on the numbers, yet the step overwrites the route (the
signed difference is 0 - (-1) = 1 and does not overflow). -/
theorem C5_numeric_greater_counterexample :
    ¬ ((Example.entry 7 4294967295 1 2 true RouteFlags.VALID).validSeqNo = false ∨
        (Example.entry 7 4294967295 1 2 true RouteFlags.VALID).seqNo
          < (Example.reply 5 7 0 9 false).dstSeqno ∨
        ((Example.reply 5 7 0 9 false).dstSeqno
            = (Example.entry 7 4294967295 1 2 true RouteFlags.VALID).seqNo ∧
          (Example.entry 7 4294967295 1 2 true RouteFlags.VALID).flag ≠ RouteFlags.VALID) ∨
        ((Example.reply 5 7 0 9 false).dstSeqno
            = (Example.entry 7 4294967295 1 2 true RouteFlags.VALID).seqNo ∧
          (Example.entry 7 4294967295 1 2 true RouteFlags.VALID).flag = RouteFlags.VALID ∧
          5 < (Example.entry 7 4294967295 1 2 true RouteFlags.VALID).hop)) ∧
      seqDiff 0 4294967295 = some 1 ∧
      (acceptanceStep ⟨[Example.entry 7 4294967295 1 2 true RouteFlags.VALID]⟩
          (Example.entry 7 0 5 3 true RouteFlags.VALID) (Example.reply 5 7 0 9 false) 5
          (Example.entry 7 4294967295 1 2 true RouteFlags.VALID) false).LookupRoute 7
        = some (Example.entry 7 0 5 3 true RouteFlags.VALID) ∧
      (acceptanceStep ⟨[Example.entry 7 4294967295 1 2 true RouteFlags.VALID]⟩
          (Example.entry 7 0 5 3 true RouteFlags.VALID) (Example.reply 5 7 0 9 false) 5
          (Example.entry 7 4294967295 1 2 true RouteFlags.VALID) true).LookupRoute 7
        = some (Example.entry 7 0 5 3 true RouteFlags.VALID) := by
  decide

/-- C5, amended: with the existing route `toDst` in the table under the candidate's
destination, 32-bit sequence numbers, and the signed difference of rule (ii) not overflowing
whenever that rule is reached, the acceptance step overwrites the route with the candidate
when (a) its sequence number is marked invalid, or (b) the candidate's sequence number is
newer in the circular 32-bit order, that is (candidate - existing) mod 2^32 lies in
[1, 2^31 - 1], or (c) the sequence numbers are equal and the route is not flagged valid, or
(d) the sequence numbers are equal, the route is flagged valid and the candidate's hop count is
strictly smaller; in every other case the step leaves the table as it was. -/
theorem C5_acceptanceStep_iff (t : RoutingTable) (newEntry toDst : RoutingTableEntry)
    (rrepHeader : RrepHeader) (hop : Nat) (indetNewer : Bool)
    (hroute : t.LookupRoute newEntry.dst = some toDst)
    (hc : rrepHeader.dstSeqno < 2 ^ 32) (he : toDst.seqNo < 2 ^ 32)
    (hno : toDst.validSeqNo = true →
      -(2 ^ 31) ≤ int32_t rrepHeader.dstSeqno - int32_t toDst.seqNo ∧
        int32_t rrepHeader.dstSeqno - int32_t toDst.seqNo < 2 ^ 31) :
    ((toDst.validSeqNo = false ∨
        (1 ≤ (rrepHeader.dstSeqno + 2 ^ 32 - toDst.seqNo) % 2 ^ 32 ∧
          (rrepHeader.dstSeqno + 2 ^ 32 - toDst.seqNo) % 2 ^ 32 ≤ 2 ^ 31 - 1) ∨
        (rrepHeader.dstSeqno = toDst.seqNo ∧ toDst.flag ≠ RouteFlags.VALID) ∨
        (rrepHeader.dstSeqno = toDst.seqNo ∧ toDst.flag = RouteFlags.VALID ∧ hop < toDst.hop)) →
      acceptanceStep t newEntry rrepHeader hop toDst indetNewer = t.Update newEntry ∧
        (acceptanceStep t newEntry rrepHeader hop toDst indetNewer).LookupRoute newEntry.dst
          = some newEntry) ∧
    (¬ (toDst.validSeqNo = false ∨
        (1 ≤ (rrepHeader.dstSeqno + 2 ^ 32 - toDst.seqNo) % 2 ^ 32 ∧
          (rrepHeader.dstSeqno + 2 ^ 32 - toDst.seqNo) % 2 ^ 32 ≤ 2 ^ 31 - 1) ∨
        (rrepHeader.dstSeqno = toDst.seqNo ∧ toDst.flag ≠ RouteFlags.VALID) ∨
        (rrepHeader.dstSeqno = toDst.seqNo ∧ toDst.flag = RouteFlags.VALID ∧ hop < toDst.hop)) →
      acceptanceStep t newEntry rrepHeader hop toDst indetNewer = t) := by
  have hup := RoutingTable.LookupRoute_Update_self t newEntry toDst hroute
  by_cases hv : toDst.validSeqNo = true
  · have hiff := seqNewer_of_range rrepHeader.dstSeqno toDst.seqNo indetNewer hc he (hno hv)
    rw [← hiff]
    constructor
    · intro hacc
      have hstep : acceptanceStep t newEntry rrepHeader hop toDst indetNewer
          = t.Update newEntry := by
        unfold acceptanceStep
        rcases hacc with h | h | ⟨h1, h2⟩ | ⟨h1, _, h3⟩
        · simp [h]
        · simp [h]
        · simp [h1, h2]
        · simp [h1, h3]
      exact ⟨hstep, by rw [hstep]; exact hup⟩
    · intro hrej
      simp only [not_or, not_and, not_lt] at hrej
      obtain ⟨_, h2, h3, h4⟩ := hrej
      have h2' : seqNewer rrepHeader.dstSeqno toDst.seqNo indetNewer = false := by
        simpa using h2
      unfold acceptanceStep
      by_cases heq : rrepHeader.dstSeqno = toDst.seqNo
      · have hf : toDst.flag = RouteFlags.VALID := by
          by_contra hne
          exact h3 heq hne
        have hh := h4 heq hf
        rw [heq] at h2'
        simp [hv, heq, hf, h2', Nat.not_lt.mpr hh]
      · simp [hv, heq, h2']
  · have hv' : toDst.validSeqNo = false := by simpa using hv
    have hstep : acceptanceStep t newEntry rrepHeader hop toDst indetNewer
        = t.Update newEntry := by
      unfold acceptanceStep
      simp [hv']
    constructor
    · intro _
      exact ⟨hstep, by rw [hstep]; exact hup⟩
    · intro hrej
      exact absurd (Or.inl hv') hrej

/-- C5, amended, at a concrete input: the existing route has sequence number 4294967295 and
the candidate has sequence number 0, which is newer in the circular order (rule (b)). -/
theorem C5_acceptanceStep_iff_witness :
    (RoutingTable.mk [Example.entry 7 4294967295 1 2 true RouteFlags.VALID]).LookupRoute
        (Example.entry 7 0 5 3 true RouteFlags.VALID).dst
        = some (Example.entry 7 4294967295 1 2 true RouteFlags.VALID) ∧
      acceptanceStep ⟨[Example.entry 7 4294967295 1 2 true RouteFlags.VALID]⟩
          (Example.entry 7 0 5 3 true RouteFlags.VALID) (Example.reply 5 7 0 9 false) 5
          (Example.entry 7 4294967295 1 2 true RouteFlags.VALID) false
        = (RoutingTable.mk [Example.entry 7 4294967295 1 2 true RouteFlags.VALID]).Update
          (Example.entry 7 0 5 3 true RouteFlags.VALID) :=
  ⟨by decide,
    ((C5_acceptanceStep_iff ⟨[Example.entry 7 4294967295 1 2 true RouteFlags.VALID]⟩
      (Example.entry 7 0 5 3 true RouteFlags.VALID)
      (Example.entry 7 4294967295 1 2 true RouteFlags.VALID)
      (Example.reply 5 7 0 9 false) 5 false (by decide) (by decide) (by decide)
      (fun _ => by decide)).1 (Or.inr (Or.inl (by decide)))).1⟩

/-- C20, evaluated on the code: the existing route has the valid sequence number 2147483647
and the candidate has 2147483648, so (candidate - existing) mod 2^32 is 1. The subtraction
`int32_t (candidate) - int32_t (existing)` is -2147483648 - 2147483647 and overflows; where
the test then comes out false (a build that compares the two `int32_t` values), rule (ii) does
not fire and the route is left as it was. -/
theorem C20_overflow_at_half_range :
    (1 ≤ (2147483648 + 2 ^ 32 - 2147483647) % 2 ^ 32 ∧
        (2147483648 + 2 ^ 32 - 2147483647) % 2 ^ 32 ≤ 2 ^ 31 - 1) ∧
      int32_t 2147483648 - int32_t 2147483647 = -4294967295 ∧
      seqDiff 2147483648 2147483647 = none ∧
      seqNewer 2147483648 2147483647 false = false ∧
      acceptanceStep ⟨[Example.entry 7 2147483647 1 2 true RouteFlags.VALID]⟩
          (Example.entry 7 2147483648 5 3 true RouteFlags.VALID)
          (Example.reply 4 7 2147483648 9 false) 5
          (Example.entry 7 2147483647 1 2 true RouteFlags.VALID) false
        = ⟨[Example.entry 7 2147483647 1 2 true RouteFlags.VALID]⟩ := by
  decide

/-! ## What the handler does to the route to the destination -/

theorem RoutingTableEntry.InsertPrecursor_with (E : RoutingTableEntry)
    (l : List Ipv4Address) (x : Ipv4Address) :
    ∃ l1, RoutingTableEntry.InsertPrecursor { E with precursorList := l } x
      = { E with precursorList := l1 } := by
  unfold RoutingTableEntry.InsertPrecursor
  split
  · exact ⟨l, rfl⟩
  · exact ⟨l ++ [x], rfl⟩

theorem updatePrecursors_preserves (base : Base) (t : RoutingTable) (D : Ipv4Address)
    (TO E : RoutingTableEntry) (hD : t.LookupRoute D = some E) (hDO : D ≠ TO.dst)
    (hd0D : base.defaultEntry.dst ≠ D) :
    ∃ l, (updatePrecursors base t D TO).1.LookupRoute D
      = some { E with precursorList := l } := by
  have hED : E.dst = D := RoutingTable.LookupRoute_dst t D E hD
  by_cases hvalid : E.flag = RouteFlags.VALID
  · have hv : t.LookupValidRoute D = some (E, true) := by
      simp [RoutingTable.LookupValidRoute, hD, hvalid]
    have h1D : (t.Update (E.InsertPrecursor TO.nextHop)).LookupRoute D
        = some (E.InsertPrecursor TO.nextHop) := by
      rw [RoutingTable.LookupRoute_Update]
      simp [hED, hD]
    have h2D := RoutingTable.LookupRoute_Update_nextHop _ base.defaultEntry E.nextHop
      TO.nextHop D _ h1D hd0D
    rw [RoutingTableEntry.InsertPrecursor_idem, ite_self] at h2D
    have h3D : ((((t.Update (E.InsertPrecursor TO.nextHop)).Update
        (((t.Update (E.InsertPrecursor TO.nextHop)).LookupRoute E.nextHop).getD
          base.defaultEntry |>.InsertPrecursor TO.nextHop)).Update
        (TO.InsertPrecursor E.nextHop)).LookupRoute D)
        = some (E.InsertPrecursor TO.nextHop) := by
      rw [RoutingTable.LookupRoute_Update_of_ne _ _ _ (by simpa using hDO)]
      exact h2D
    have h4D := RoutingTable.LookupRoute_Update_nextHop _ base.defaultEntry TO.nextHop
      E.nextHop D _ h3D hd0D
    obtain ⟨l1, hl1⟩ := RoutingTableEntry.InsertPrecursor_with E E.precursorList TO.nextHop
    obtain ⟨l2, hl2⟩ := RoutingTableEntry.InsertPrecursor_with E l1 E.nextHop
    have hE1 : E.InsertPrecursor TO.nextHop = { E with precursorList := l1 } := hl1
    unfold updatePrecursors
    rw [hv]
    simp only [RoutingTableEntry.InsertPrecursor_nextHop]
    rw [h4D]
    by_cases hX : TO.nextHop = D
    · rw [if_pos hX, hE1, hl2]
      exact ⟨l2, rfl⟩
    · rw [if_neg hX, hE1]
      exact ⟨l1, rfl⟩
  · have hv : t.LookupValidRoute D = some (E, false) := by
      simp [RoutingTable.LookupValidRoute, hD, hvalid]
    unfold updatePrecursors
    rw [hv]
    exact ⟨E.precursorList, hD⟩

theorem forwardReply_preserves (base : Base) (rp : RoutingProtocol) (t : RoutingTable)
    (calls : List Call) (p : Packet) (rrepHeader : RrepHeader) (D : Ipv4Address) (draw : ℚ)
    (E : RoutingTableEntry) (hD : t.LookupRoute D = some E) (hDO : D ≠ rrepHeader.origin)
    (hd0D : base.defaultEntry.dst ≠ D) (o : Outcome)
    (h : forwardReply base rp t calls p rrepHeader D draw = some o) :
    ∃ l, o.m_routingTable.LookupRoute D = some { E with precursorList := l } := by
  unfold forwardReply at h
  split at h
  · simp only [Option.some.injEq] at h
    subst h
    exact ⟨E.precursorList, hD⟩
  · split at h
    · simp only [Option.some.injEq] at h
      subst h
      exact ⟨E.precursorList, hD⟩
    · next found hfound =>
      have hfd : found.dst = rrepHeader.origin :=
        RoutingTable.LookupRoute_dst t _ found hfound
      split at h
      · simp only [Option.some.injEq] at h
        subst h
        exact ⟨E.precursorList, hD⟩
      · have h1D : (t.Update
            { found with lifeTime := max rp.m_activeRouteTimeout found.lifeTime }).LookupRoute D
            = some E := by
          rw [RoutingTable.LookupRoute_Update_of_ne _ _ _ (by rw [hfd]; exact hDO)]
          exact hD
        have hp := updatePrecursors_preserves base
          (t.Update { found with lifeTime := max rp.m_activeRouteTimeout found.lifeTime }) D
          { found with lifeTime := max rp.m_activeRouteTimeout found.lifeTime } E h1D
          (by rw [hfd]; exact hDO) hd0D
        simp only [] at h
        split at h
        · simp only [Option.some.injEq] at h
          subst h
          exact hp
        · split at h
          · exact absurd h (by simp)
          · simp only [Option.some.injEq] at h
            subst h
            exact hp

theorem afterRouteUpdate_preserves (base : Base) (rp : RoutingProtocol) (t1 : RoutingTable)
    (toDst newEntry E : RoutingTableEntry) (rrepHeader : RrepHeader) (p : Packet)
    (sender : Ipv4Address) (draw : ℚ)
    (hD : t1.LookupRoute rrepHeader.dst = some E) (hN : newEntry.dst = rrepHeader.dst)
    (hfin : toDst.flag = RouteFlags.IN_SEARCH → E = newEntry)
    (hDO : rrepHeader.dst ≠ rrepHeader.origin)
    (hd0D : base.defaultEntry.dst ≠ rrepHeader.dst) (o : Outcome)
    (h : afterRouteUpdate base rp t1 toDst newEntry rrepHeader p sender draw = some o) :
    ∃ l, o.m_routingTable.LookupRoute rrepHeader.dst = some { E with precursorList := l } := by
  unfold afterRouteUpdate at h
  simp only [] at h
  split at h
  · simp only [Option.some.injEq] at h
    subst h
    by_cases hf : toDst.flag = RouteFlags.IN_SEARCH
    · have hEN := hfin hf
      subst hEN
      refine ⟨E.precursorList, ?_⟩
      simp only [hf, beq_self_eq_true, if_true]
      rw [← hN]
      exact RoutingTable.LookupRoute_Update_self t1 E E (by rw [hN]; exact hD)
    · have hf1 : (toDst.flag == RouteFlags.IN_SEARCH) = false := by simpa using hf
      refine ⟨E.precursorList, ?_⟩
      simp only [hf1, Bool.false_eq_true, if_false]
      exact hD
  · exact forwardReply_preserves base rp t1 _ p { rrepHeader with ackRequired := false }
      rrepHeader.dst draw E hD hDO hd0D o h

theorem TrustRecvReply_route (base : Base) (rp : RoutingProtocol) (p : Packet)
    (receiver sender : Ipv4Address) (draw : ℚ) (indetNextHop indetSender : Nat)
    (indetNewer : Bool) (toDst : RoutingTableEntry)
    (hne : p.rrepHeader.dst ≠ p.rrepHeader.origin)
    (hroute : rp.m_routingTable.LookupRoute p.rrepHeader.dst = some toDst)
    (hveto : trustVeto rp.app toDst.nextHop sender indetNextHop indetSender = false) :
    TrustRecvReply base rp p receiver sender draw indetNextHop indetSender indetNewer
      = afterRouteUpdate base rp
          (acceptanceStep rp.m_routingTable (TrustRecvReply.newEntry base p receiver sender)
            (TrustRecvReply.rrepHeader p) (TrustRecvReply.hop p) toDst indetNewer)
          toDst (TrustRecvReply.newEntry base p receiver sender) (TrustRecvReply.rrepHeader p)
          p sender draw := by
  have hne1 : (p.rrepHeader.dst == p.rrepHeader.origin) = false := by simpa using hne
  unfold TrustRecvReply
  simp [hne1, hroute, hveto]

theorem TrustRecvReply_no_route (base : Base) (rp : RoutingProtocol) (p : Packet)
    (receiver sender : Ipv4Address) (draw : ℚ) (indetNextHop indetSender : Nat)
    (indetNewer : Bool) (hne : p.rrepHeader.dst ≠ p.rrepHeader.origin)
    (hnone : rp.m_routingTable.LookupRoute p.rrepHeader.dst = none) :
    TrustRecvReply base rp p receiver sender draw indetNextHop indetSender indetNewer
      = afterRouteUpdate base rp
          (rp.m_routingTable.AddRoute (TrustRecvReply.newEntry base p receiver sender))
          base.defaultEntry (TrustRecvReply.newEntry base p receiver sender)
          (TrustRecvReply.rrepHeader p) p sender draw := by
  have hne1 : (p.rrepHeader.dst == p.rrepHeader.origin) = false := by simpa using hne
  unfold TrustRecvReply
  simp [hne1, hnone]


theorem acceptanceStep_LookupRoute_isSome (t : RoutingTable)
    (newEntry toDst found : RoutingTableEntry) (rrepHeader : RrepHeader) (hop : Nat)
    (indetNewer : Bool) (h : t.LookupRoute newEntry.dst = some found) :
    ∃ e, (acceptanceStep t newEntry rrepHeader hop toDst indetNewer).LookupRoute newEntry.dst
      = some e := by
  have hup := RoutingTable.LookupRoute_Update_self t newEntry found h
  unfold acceptanceStep
  split
  · exact ⟨_, hup⟩
  · split
    · exact ⟨_, hup⟩
    · split
      · exact ⟨_, hup⟩
      · split
        · exact ⟨_, hup⟩
        · exact ⟨_, h⟩

theorem afterRouteUpdate_calls (base : Base) (rp : RoutingProtocol) (t1 : RoutingTable)
    (toDst newEntry : RoutingTableEntry) (rrepHeader : RrepHeader) (p : Packet)
    (sender : Ipv4Address) (draw : ℚ) (o : Outcome)
    (h : afterRouteUpdate base rp t1 toDst newEntry rrepHeader p sender draw = some o)
    (socket ttl : Nat) (sent : RrepHeader) (dest : Ipv4Address) (port : Nat)
    (hmem : Call.SendTo socket ttl sent dest port ∈ o.calls) :
    sent = { rrepHeader with ackRequired := false } := by
  unfold afterRouteUpdate at h
  simp only [] at h
  split at h
  · simp only [Option.some.injEq] at h
    subst h
    simp only [List.mem_append, List.mem_singleton] at hmem
    rcases hmem with hmem | hmem
    · split at hmem
      · simp at hmem
      · simp at hmem
    · cases hmem
  · rcases forwardReply_calls _ _ _ _ _ _ _ _ _ h with hc | ⟨s, tt, d, hc⟩
    · rw [hc] at hmem
      split at hmem
      · simp at hmem
      · simp at hmem
    · rw [hc] at hmem
      simp only [List.mem_append, List.mem_singleton] at hmem
      rcases hmem with hmem | hmem
      · split at hmem
        · simp at hmem
        · simp at hmem
      · simp only [Call.SendTo.injEq] at hmem
        exact hmem.2.2.1

/-! ## The update policy on the whole handler -/

/-- C16 as stated fails at a received hop count of 255: the hop count is held in 8 bits, so
the candidate route is stored with hop count 0 and the forwarded reply carries hop count 0. -/
theorem C16_hop_wraps_counterexample :
    TrustRecvReply.hop (Example.replyPacket (Example.reply 255 7 5 9 false) 5) = 0 ∧
      TrustRecvReply Example.base
          (Example.protocol ⟨[Example.entry 9 1 2 4 true RouteFlags.VALID]⟩ none 0)
          (Example.replyPacket (Example.reply 255 7 5 9 false) 5) 1 3 50 0 0 false
        = some ⟨⟨[{ Example.entry 9 1 2 4 true RouteFlags.VALID with precursorList := [3] },
              { Example.entry 7 5 0 3 true RouteFlags.VALID with precursorList := [4] }]⟩, [],
            [Call.SendTo 0 4 (Example.reply 0 7 5 9 false) 4 654]⟩ ∧
      ¬ (255 < (Example.reply 0 7 5 9 false).hopCount) := by
  decide

/-- C16, amended: for a received reply whose hop count is below 255, the hop count the handler
uses is the received one plus one, hence strictly greater. It is the hop count of the candidate
route and of the rewritten reply header; a hello is handed on with that header; for any other
reply the candidate is what `AddRoute` receives when no route exists, and what the acceptance
step and the finalisation of the discovery receive when one exists; every reply the handler
sends on carries that hop count; and wherever the candidate is stored (inserted as a new
route, written by the acceptance step, or finalising a route that was in-search at the node
that started the discovery) the route to the destination in the outcome has the sender as next
hop and that hop count. -/
theorem C16_hop_incremented (base : Base) (rp : RoutingProtocol) (p : Packet)
    (receiver sender : Ipv4Address) (draw : ℚ) (indetNextHop indetSender : Nat)
    (indetNewer : Bool) (hhop : p.rrepHeader.hopCount < 255) :
    (TrustRecvReply.hop p = p.rrepHeader.hopCount + 1 ∧
      p.rrepHeader.hopCount < TrustRecvReply.hop p ∧
      (TrustRecvReply.newEntry base p receiver sender).hop = p.rrepHeader.hopCount + 1 ∧
      (TrustRecvReply.rrepHeader p).hopCount = p.rrepHeader.hopCount + 1) ∧
    (p.rrepHeader.dst = p.rrepHeader.origin →
      TrustRecvReply base rp p receiver sender draw indetNextHop indetSender indetNewer
        = some ⟨rp.m_routingTable, rp.m_addressReqTimer,
            [Call.ProcessHello (TrustRecvReply.rrepHeader p) receiver]⟩) ∧
    (p.rrepHeader.dst ≠ p.rrepHeader.origin →
      rp.m_routingTable.LookupRoute p.rrepHeader.dst = none →
      TrustRecvReply base rp p receiver sender draw indetNextHop indetSender indetNewer
        = afterRouteUpdate base rp
            (rp.m_routingTable.AddRoute (TrustRecvReply.newEntry base p receiver sender))
            base.defaultEntry (TrustRecvReply.newEntry base p receiver sender)
            (TrustRecvReply.rrepHeader p) p sender draw) ∧
    (p.rrepHeader.dst ≠ p.rrepHeader.origin →
      ∀ toDst, rp.m_routingTable.LookupRoute p.rrepHeader.dst = some toDst →
      trustVeto rp.app toDst.nextHop sender indetNextHop indetSender = false →
      TrustRecvReply base rp p receiver sender draw indetNextHop indetSender indetNewer
        = afterRouteUpdate base rp
            (acceptanceStep rp.m_routingTable (TrustRecvReply.newEntry base p receiver sender)
              (TrustRecvReply.rrepHeader p) (p.rrepHeader.hopCount + 1) toDst indetNewer)
            toDst (TrustRecvReply.newEntry base p receiver sender)
            (TrustRecvReply.rrepHeader p) p sender draw) ∧
    (∀ o, TrustRecvReply base rp p receiver sender draw indetNextHop indetSender indetNewer
        = some o →
      ∀ socket ttl rrepHeader dest port,
        Call.SendTo socket ttl rrepHeader dest port ∈ o.calls →
          rrepHeader.hopCount = p.rrepHeader.hopCount + 1 ∧
            p.rrepHeader.hopCount < rrepHeader.hopCount) ∧
    (p.rrepHeader.dst ≠ p.rrepHeader.origin →
      base.defaultEntry.dst ≠ p.rrepHeader.dst →
      ∀ o, TrustRecvReply base rp p receiver sender draw indetNextHop indetSender indetNewer
          = some o →
        (rp.m_routingTable.LookupRoute p.rrepHeader.dst = none ∨
          ∃ toDst, rp.m_routingTable.LookupRoute p.rrepHeader.dst = some toDst ∧
            trustVeto rp.app toDst.nextHop sender indetNextHop indetSender = false ∧
            acceptanceStep rp.m_routingTable (TrustRecvReply.newEntry base p receiver sender)
                (TrustRecvReply.rrepHeader p) (TrustRecvReply.hop p) toDst indetNewer
              = rp.m_routingTable.Update (TrustRecvReply.newEntry base p receiver sender)) →
        ∃ e, o.m_routingTable.LookupRoute p.rrepHeader.dst = some e ∧
          e.nextHop = sender ∧ e.hop = p.rrepHeader.hopCount + 1 ∧
          p.rrepHeader.hopCount < e.hop) ∧
    (p.rrepHeader.dst ≠ p.rrepHeader.origin →
      ∀ toDst, rp.m_routingTable.LookupRoute p.rrepHeader.dst = some toDst →
      toDst.flag = RouteFlags.IN_SEARCH →
      trustVeto rp.app toDst.nextHop sender indetNextHop indetSender = false →
      base.IsMyOwnAddress p.rrepHeader.origin = true →
      ∃ o e, TrustRecvReply base rp p receiver sender draw indetNextHop indetSender indetNewer
          = some o ∧
        o.m_routingTable.LookupRoute p.rrepHeader.dst = some e ∧
        e.nextHop = sender ∧ e.hop = p.rrepHeader.hopCount + 1 ∧
        p.rrepHeader.hopCount < e.hop) := by
  have hmod : TrustRecvReply.hop p = p.rrepHeader.hopCount + 1 := by
    unfold TrustRecvReply.hop
    omega
  refine ⟨⟨hmod, by omega, by simp [hmod], by simp [hmod]⟩, ?_, ?_, ?_, ?_, ?_, ?_⟩
  · intro heq
    unfold TrustRecvReply
    simp [heq]
  · intro hne hnone
    exact TrustRecvReply_no_route base rp p receiver sender draw indetNextHop indetSender
      indetNewer hne hnone
  · intro hne toDst hroute hveto
    rw [← hmod]
    exact TrustRecvReply_route base rp p receiver sender draw indetNextHop indetSender
      indetNewer toDst hne hroute hveto
  · intro o ho socket ttl sent dest port hmem
    have hsent : sent = { TrustRecvReply.rrepHeader p with ackRequired := false } →
        sent.hopCount = p.rrepHeader.hopCount + 1 ∧ p.rrepHeader.hopCount < sent.hopCount := by
      intro hs
      subst hs
      simp [hmod]
    by_cases heq : p.rrepHeader.dst = p.rrepHeader.origin
    · unfold TrustRecvReply at ho
      simp only [TrustRecvReply.rrepHeader_origin, heq, beq_self_eq_true, if_true,
        Option.some.injEq] at ho
      subst ho
      simp at hmem
    · cases hl : rp.m_routingTable.LookupRoute p.rrepHeader.dst with
      | none =>
        rw [TrustRecvReply_no_route base rp p receiver sender draw indetNextHop indetSender
          indetNewer heq hl] at ho
        exact hsent (afterRouteUpdate_calls _ _ _ _ _ _ _ _ _ _ ho socket ttl sent dest port
          hmem)
      | some toDst =>
        cases hv : trustVeto rp.app toDst.nextHop sender indetNextHop indetSender with
        | true =>
          rw [TrustRecvReply_veto base rp p receiver sender draw indetNextHop indetSender
            indetNewer toDst heq hl hv] at ho
          simp only [Option.some.injEq] at ho
          subst ho
          simp at hmem
        | false =>
          rw [TrustRecvReply_route base rp p receiver sender draw indetNextHop indetSender
            indetNewer toDst heq hl hv] at ho
          exact hsent (afterRouteUpdate_calls _ _ _ _ _ _ _ _ _ _ ho socket ttl sent dest
            port hmem)
  · intro hne hd0D o ho hstored
    have hfinal : ∃ l, o.m_routingTable.LookupRoute p.rrepHeader.dst
        = some { TrustRecvReply.newEntry base p receiver sender with precursorList := l } := by
      rcases hstored with hnone | ⟨toDst, hroute, hveto, hacc⟩
      · rw [TrustRecvReply_no_route base rp p receiver sender draw indetNextHop indetSender
          indetNewer hne hnone] at ho
        refine afterRouteUpdate_preserves base rp _ _
          (TrustRecvReply.newEntry base p receiver sender)
          (TrustRecvReply.newEntry base p receiver sender) (TrustRecvReply.rrepHeader p) p
          sender draw ?_ rfl (fun _ => rfl) hne hd0D o ho
        rw [RoutingTable.LookupRoute_AddRoute _ _ _ hnone]
        simp
      · rw [TrustRecvReply_route base rp p receiver sender draw indetNextHop indetSender
          indetNewer toDst hne hroute hveto, hacc] at ho
        exact afterRouteUpdate_preserves base rp _ _
          (TrustRecvReply.newEntry base p receiver sender)
          (TrustRecvReply.newEntry base p receiver sender) (TrustRecvReply.rrepHeader p) p
          sender draw
          (RoutingTable.LookupRoute_Update_self rp.m_routingTable
            (TrustRecvReply.newEntry base p receiver sender) toDst hroute)
          rfl (fun _ => rfl) hne hd0D o ho
    obtain ⟨l, hl⟩ := hfinal
    exact ⟨_, hl, rfl, hmod, by rw [show (RoutingTableEntry.hop
      { TrustRecvReply.newEntry base p receiver sender with precursorList := l })
      = TrustRecvReply.hop p from rfl]; omega⟩
  · intro hne toDst hroute hflag hveto hown
    have hf : (toDst.flag == RouteFlags.IN_SEARCH) = true := by simp [hflag]
    obtain ⟨e1, he1⟩ := acceptanceStep_LookupRoute_isSome rp.m_routingTable
      (TrustRecvReply.newEntry base p receiver sender) toDst toDst
      (TrustRecvReply.rrepHeader p) (TrustRecvReply.hop p) indetNewer hroute
    refine ⟨_, TrustRecvReply.newEntry base p receiver sender, by
      rw [TrustRecvReply_route base rp p receiver sender draw indetNextHop indetSender
        indetNewer toDst hne hroute hveto]
      unfold afterRouteUpdate
      simp only [TrustRecvReply.rrepHeader_origin, hown, hf, if_true]
      rfl, ?_, rfl, by simp [hmod], by simp [hmod]⟩
    simp only [RoutingTable.LookupRoute_Update, TrustRecvReply.rrepHeader_dst,
      TrustRecvReply.newEntry_dst, if_true]
    rw [show (acceptanceStep rp.m_routingTable (TrustRecvReply.newEntry base p receiver sender)
      (TrustRecvReply.rrepHeader p) (TrustRecvReply.hop p) toDst indetNewer).LookupRoute
      p.rrepHeader.dst = some e1 from he1]
    rfl

/-- C16, amended, at a concrete input: a reply received with hop count 2 is forwarded with hop
count 3. -/
theorem C16_hop_incremented_witness :
    (Example.reply 3 7 5 9 false).hopCount
        = (Example.replyPacket (Example.reply 2 7 5 9 false) 5).rrepHeader.hopCount + 1 ∧
      (Example.replyPacket (Example.reply 2 7 5 9 false) 5).rrepHeader.hopCount
        < (Example.reply 3 7 5 9 false).hopCount :=
  (C16_hop_incremented Example.base
    (Example.protocol ⟨[Example.entry 9 1 2 4 true RouteFlags.VALID]⟩ none 0)
    (Example.replyPacket (Example.reply 2 7 5 9 false) 5) 1 3 50 0 0 false
    (by decide)).2.2.2.2.1
    ⟨⟨[{ Example.entry 9 1 2 4 true RouteFlags.VALID with precursorList := [3] },
        { Example.entry 7 5 3 3 true RouteFlags.VALID with precursorList := [4] }]⟩, [],
      [Call.SendTo 0 4 (Example.reply 3 7 5 9 false) 4 654]⟩
    (by decide) 0 4 (Example.reply 3 7 5 9 false) 4 654 (by decide)

end ns3
